import Mathlib

/-!
The kube-plex admission webhook: mutation gate, config resolver, patch builder and the
admission decision.

A shallow embedding of `pkg/webhook/mutate.go` and of `Handler.mutate` in
`pkg/webhook/handler.go`.

* Go strings are Lean `String`s (sequences of Unicode scalar values).
* A Go `map[string]string` that may be `nil` is `Option (List (String × String))`;
  indexing a map returns the zero value `""` for a missing key.
* Go slices are `List`s (a `nil` slice and an empty slice both have length 0).
* Go pointers to optional sub-records are `Option`s.
* A function that can return a Go `error` or hit a run-time index fault returns a
  `Result`, with one constructor for each of the three outcomes.
-/

namespace KubePlex

/-! ## Kubernetes `core/v1` records (the fields this program reads or writes) -/

structure PersistentVolumeClaimVolumeSource where
  ClaimName : String
  ReadOnly : Bool
  deriving DecidableEq, Repr

structure EmptyDirVolumeSource where
  Medium : String
  deriving DecidableEq, Repr

structure Volume where
  Name : String
  PersistentVolumeClaim : Option PersistentVolumeClaimVolumeSource
  EmptyDir : Option EmptyDirVolumeSource
  deriving DecidableEq, Repr

structure VolumeMount where
  Name : String
  MountPath : String
  ReadOnly : Bool
  SubPath : String
  deriving DecidableEq, Repr

structure ObjectFieldSelector where
  APIVersion : String
  FieldPath : String
  deriving DecidableEq, Repr

structure EnvVarSource where
  FieldRef : Option ObjectFieldSelector
  deriving DecidableEq, Repr

structure EnvVar where
  Name : String
  Value : String
  ValueFrom : Option EnvVarSource
  deriving DecidableEq, Repr

structure ExecAction where
  Command : List String
  deriving DecidableEq, Repr

structure HTTPGetAction where
  Path : String
  Port : String
  Host : String
  Scheme : String
  deriving DecidableEq, Repr

structure LifecycleHandler where
  Exec : Option ExecAction
  HTTPGet : Option HTTPGetAction
  deriving DecidableEq, Repr

structure Lifecycle where
  PostStart : Option LifecycleHandler
  PreStop : Option LifecycleHandler
  deriving DecidableEq, Repr

structure Container where
  Name : String
  Image : String
  Command : List String
  Env : List EnvVar
  VolumeMounts : List VolumeMount
  Lifecycle : Option Lifecycle
  deriving DecidableEq, Repr

structure PodSpec where
  Volumes : List Volume
  InitContainers : List Container
  Containers : List Container
  deriving DecidableEq, Repr

structure Pod where
  Annotations : Option (List (String × String))
  Spec : PodSpec
  deriving DecidableEq, Repr

/-! ## Constants of `mutate.go` -/

def AnnotationEnabled : String := "kube-plex.io/enabled"
def AnnotationPMSService : String := "kube-plex.io/pms-service"
def AnnotationDataPVC : String := "kube-plex.io/data-pvc"
def AnnotationConfigPVC : String := "kube-plex.io/config-pvc"
def AnnotationTranscodePVC : String := "kube-plex.io/transcode-pvc"
def AnnotationPMSContainer : String := "kube-plex.io/pms-container"
def AnnotationPMSImage : String := "kube-plex.io/pms-image"
def AnnotationKubePlexImage : String := "kube-plex.io/kube-plex-image"

def DefaultKubePlexImage : String := "ghcr.io/adamjacobmuller/kube-plex:latest"

def kubePlexBinaryVolume : String := "kube-plex-binary"
def kubePlexBinaryMount : String := "/shared"

/-! ## Program records -/

/-- The dynamically typed `Value interface{}` of a patch operation, as a tagged union of
the concrete shapes the builder stores in it. -/
inductive PatchValue where
  | volumes (vs : List Volume)
  | volume (v : Volume)
  | containers (cs : List Container)
  | container (c : Container)
  | volumeMounts (ms : List VolumeMount)
  | volumeMount (m : VolumeMount)
  | lifecycle (l : Lifecycle)
  | envVars (es : List EnvVar)
  | envVar (e : EnvVar)
  deriving DecidableEq, Repr

/-- PatchOperation represents a JSON patch operation. -/
structure PatchOperation where
  Op : String
  Path : String
  Value : PatchValue
  deriving DecidableEq, Repr

/-- Config holds the configuration extracted from annotations. -/
structure Config where
  PMSService : String
  DataPVC : String
  ConfigPVC : String
  TranscodePVC : String
  PMSContainer : String
  PMSImage : String
  KubePlexImage : String
  Namespace : String
  deriving DecidableEq, Repr

/-- The two `error` values the core builds with `fmt.Errorf`:
`"transcode PVC is required: set kube-plex.io/transcode-pvc annotation"` and
`"container %q not found"` with the configured container name. -/
inductive CoreError where
  | transcodePVCRequired
  | containerNotFound (name : String)
  deriving DecidableEq, Repr

/-- Outcome of a Go call: a returned value, a returned `error`, or a run-time fault
(index out of range). -/
inductive Result (α : Type) where
  | ok (a : α)
  | error (e : CoreError)
  | fault
  deriving DecidableEq, Repr

/-! ## Library functions used by the program -/

/-- Rune lower-casing as `unicode.ToLower` does it, up to the identity of non-ASCII
results: `A`..`Z` are shifted by 32, and the only two runes above U+007F whose lower case
is an ASCII letter are mapped there (U+0130 to `i`, U+212A to `k`). The lower case of every
other rune above U+007F is again above U+007F; such a rune is left unchanged here, which
gives the same answer to every comparison of a lower-cased string with an ASCII literal,
the only use this program makes of lower-casing. -/
def unicodeToLower (c : Char) : Char :=
  if 65 ≤ c.toNat ∧ c.toNat ≤ 90 then Char.ofNat (c.toNat + 32)
  else if c.toNat = 0x130 then Char.ofNat 105
  else if c.toNat = 0x212A then Char.ofNat 107
  else c

/-- The Go function `strings.ToLower`: every rune mapped through `unicodeToLower`. -/
def toLower (s : String) : String := ⟨s.data.map unicodeToLower⟩

/-- Whether `pat` starts the character list `s`. -/
def startsWithChars : List Char → List Char → Bool
  | [], _ => true
  | _ :: _, [] => false
  | p :: ps, c :: cs => p == c && startsWithChars ps cs

/-- Whether `pat` occurs in the character list `s` at some position. -/
def containsChars (pat : List Char) : List Char → Bool
  | [] => startsWithChars pat []
  | c :: cs => startsWithChars pat (c :: cs) || containsChars pat cs

/-- The Go function `strings.Contains`. -/
def stringsContains (s substr : String) : Bool := containsChars substr.data s.data

/-- Indexing a Go map: the value stored under `key`, or `""` when the key is missing. -/
def mapIndex (m : List (String × String)) (key : String) : String :=
  (m.lookup key).getD ""

/-- Indexing `pod.Spec.Containers` with a Go `int`: `none` is the index-out-of-range
fault. -/
def containerAt (pod : Pod) (containerIdx : Int) : Option Container :=
  if containerIdx < 0 then none else pod.Spec.Containers[containerIdx.toNat]?

/-! ## Mutation gate -/

/-- ShouldMutate checks if the pod should be mutated based on annotations. -/
def ShouldMutate (pod : Pod) : Bool :=
  match pod.Annotations with
  | none => false
  | some annotations => toLower (mapIndex annotations AnnotationEnabled) == "true"

/-! ## Config resolver -/

/-- One iteration of the loop of `detectPVCs`: the effect of one volume on the record. -/
def detectVolume (cfg : Config) (vol : Volume) : Config :=
  match vol.PersistentVolumeClaim with
  | none => cfg
  | some pvc =>
    let pvcName := pvc.ClaimName
    if toLower vol.Name = "data" then
      if cfg.DataPVC = "" then { cfg with DataPVC := pvcName } else cfg
    else if toLower vol.Name = "config" then
      if cfg.ConfigPVC = "" then { cfg with ConfigPVC := pvcName } else cfg
    else if toLower vol.Name = "transcode" then
      if cfg.TranscodePVC = "" then { cfg with TranscodePVC := pvcName } else cfg
    else cfg

/-- detectPVCs attempts to auto-detect PVC names from volume mounts. -/
def detectPVCs (pod : Pod) (cfg : Config) : Config :=
  pod.Spec.Volumes.foldl detectVolume cfg

/-- The loop `for _, c := range containers { if c.Name == name { img = c.Image; break } }`
started with the current value `img`. -/
def containerImage (name : String) : List Container → String → String
  | [], img => img
  | c :: cs, img => if c.Name = name then c.Image else containerImage name cs img

/-- ExtractConfig extracts configuration from pod annotations and spec. -/
def ExtractConfig (pod : Pod) (ns : String) : Result Config :=
  let cfg : Config :=
    { PMSService := "", DataPVC := "", ConfigPVC := "", TranscodePVC := "",
      PMSContainer := "", PMSImage := "", KubePlexImage := "", Namespace := ns }
  let annotations := pod.Annotations.getD []
  let cfg := { cfg with PMSService := mapIndex annotations AnnotationPMSService }
  let cfg := { cfg with DataPVC := mapIndex annotations AnnotationDataPVC }
  let cfg := { cfg with ConfigPVC := mapIndex annotations AnnotationConfigPVC }
  let cfg := { cfg with TranscodePVC := mapIndex annotations AnnotationTranscodePVC }
  let cfg :=
    if cfg.DataPVC = "" ∨ cfg.ConfigPVC = "" ∨ cfg.TranscodePVC = "" then detectPVCs pod cfg
    else cfg
  if cfg.TranscodePVC = "" then Result.error CoreError.transcodePVCRequired
  else
    let cfg := { cfg with PMSContainer := mapIndex annotations AnnotationPMSContainer }
    let named : Result Config :=
      if cfg.PMSContainer = "" ∧ pod.Spec.Containers.length > 0 then
        match containerAt pod 0 with
        | none => Result.fault
        | some c => Result.ok { cfg with PMSContainer := c.Name }
      else Result.ok cfg
    match named with
    | Result.fault => Result.fault
    | Result.error e => Result.error e
    | Result.ok cfg =>
      let cfg := { cfg with PMSImage := mapIndex annotations AnnotationPMSImage }
      let cfg :=
        if cfg.PMSImage = "" then
          { cfg with PMSImage := containerImage cfg.PMSContainer pod.Spec.Containers cfg.PMSImage }
        else cfg
      let cfg := { cfg with KubePlexImage := mapIndex annotations AnnotationKubePlexImage }
      let cfg :=
        if cfg.KubePlexImage = "" then { cfg with KubePlexImage := DefaultKubePlexImage }
        else cfg
      Result.ok cfg

/-! ## Patch builder -/

/-- The search loop of `CreatePatch`: the index of the first container named `name`,
counting from `i`, or the initial value `-1` when the loop never assigns. -/
def findPMSContainerIdx (name : String) : List Container → Nat → Int
  | [], _ => -1
  | c :: cs, i => if c.Name = name then (i : Int) else findPMSContainerIdx name cs (i + 1)

def addVolume (pod : Pod) (volume : Volume) : PatchOperation :=
  if pod.Spec.Volumes.length = 0 then
    { Op := "add", Path := "/spec/volumes", Value := PatchValue.volumes [volume] }
  else
    { Op := "add", Path := "/spec/volumes/-", Value := PatchValue.volume volume }

def addInitContainer (pod : Pod) (container : Container) : PatchOperation :=
  if pod.Spec.InitContainers.length = 0 then
    { Op := "add", Path := "/spec/initContainers", Value := PatchValue.containers [container] }
  else
    { Op := "add", Path := "/spec/initContainers/-", Value := PatchValue.container container }

def addVolumeMount (pod : Pod) (containerIdx : Int) (mount : VolumeMount) :
    Option PatchOperation :=
  let path := "/spec/containers/" ++ toString containerIdx ++ "/volumeMounts"
  match containerAt pod containerIdx with
  | none => none
  | some c =>
    if c.VolumeMounts.length = 0 then
      some { Op := "add", Path := path, Value := PatchValue.volumeMounts [mount] }
    else
      some { Op := "add", Path := path ++ "/-", Value := PatchValue.volumeMount mount }

/-- The shell command of the post-start hook. -/
def postStartCommand : List String :=
  ["/bin/sh", "-c",
    "until [ -f \"/usr/lib/plexmediaserver/Plex Transcoder\" ]; do sleep 1; done; " ++
      ("cp \"" ++ kubePlexBinaryMount ++ "/kube-plex\" \"/usr/lib/plexmediaserver/Plex Transcoder\"")]

def addLifecycleHook (pod : Pod) (containerIdx : Int) : Option PatchOperation :=
  let path := "/spec/containers/" ++ toString containerIdx ++ "/lifecycle"
  let lifecycle : Lifecycle :=
    { PostStart := some { Exec := some { Command := postStartCommand }, HTTPGet := none },
      PreStop := none }
  match containerAt pod containerIdx with
  | none => none
  | some c =>
    match c.Lifecycle with
    | some existing =>
      let lifecycle : Lifecycle :=
        match existing.PostStart with
        | some _ =>
          { lifecycle with
            PostStart := some { Exec := some { Command := postStartCommand }, HTTPGet := none } }
        | none => lifecycle
      let lifecycle := { lifecycle with PreStop := existing.PreStop }
      some { Op := "replace", Path := path, Value := PatchValue.lifecycle lifecycle }
    | none => some { Op := "add", Path := path, Value := PatchValue.lifecycle lifecycle }

def addEnvVar (pod : Pod) (containerIdx : Int) (env : EnvVar) : Option PatchOperation :=
  let path := "/spec/containers/" ++ toString containerIdx ++ "/env"
  match containerAt pod containerIdx with
  | none => none
  | some c =>
    if c.Env.length = 0 then
      some { Op := "add", Path := path, Value := PatchValue.envVars [env] }
    else
      some { Op := "add", Path := path ++ "/-", Value := PatchValue.envVar env }

def buildEnvVars (cfg : Config) : List EnvVar :=
  let vars : List EnvVar :=
    [ { Name := "PMS_IMAGE", Value := cfg.PMSImage, ValueFrom := none },
      { Name := "TRANSCODE_PVC", Value := cfg.TranscodePVC, ValueFrom := none },
      { Name := "KUBE_NAMESPACE", Value := "",
        ValueFrom := some { FieldRef := some { APIVersion := "", FieldPath := "metadata.namespace" } } } ]
  let vars :=
    if cfg.DataPVC ≠ "" then
      vars ++ [{ Name := "DATA_PVC", Value := cfg.DataPVC, ValueFrom := none }]
    else vars
  let vars :=
    if cfg.ConfigPVC ≠ "" then
      vars ++ [{ Name := "CONFIG_PVC", Value := cfg.ConfigPVC, ValueFrom := none }]
    else vars
  let pmsAddress := cfg.PMSService
  if pmsAddress ≠ "" then
    let pmsAddress :=
      if !stringsContains pmsAddress "://" then
        "http://" ++ cfg.PMSService ++ "." ++ cfg.Namespace ++ ".svc:32400"
      else pmsAddress
    vars ++ [{ Name := "PMS_INTERNAL_ADDRESS", Value := pmsAddress, ValueFrom := none }]
  else vars

/-- The loop `for _, env := range envVars { patches = append(patches, addEnvVar(...)) }`. -/
def appendEnvVars (pod : Pod) (containerIdx : Int) :
    List EnvVar → List PatchOperation → Option (List PatchOperation)
  | [], patches => some patches
  | env :: rest, patches =>
    match addEnvVar pod containerIdx env with
    | none => none
    | some p => appendEnvVars pod containerIdx rest (patches ++ [p])

/-- CreatePatch creates the JSON patch to mutate the pod. The result is the list of
operations handed to `json.Marshal`, whose output is the JSON array of these
operations in the same order. -/
def CreatePatch (pod : Pod) (cfg : Config) : Result (List PatchOperation) :=
  let patches : List PatchOperation := []
  let pmsContainerIdx := findPMSContainerIdx cfg.PMSContainer pod.Spec.Containers 0
  if pmsContainerIdx = -1 then Result.error (CoreError.containerNotFound cfg.PMSContainer)
  else
    let patches := patches ++ [addVolume pod
      { Name := kubePlexBinaryVolume, PersistentVolumeClaim := none,
        EmptyDir := some { Medium := "" } }]
    let initContainer : Container :=
      { Name := "kube-plex-init", Image := cfg.KubePlexImage,
        Command := ["cp", "/kube-plex", kubePlexBinaryMount ++ "/kube-plex"],
        Env := [],
        VolumeMounts := [{ Name := kubePlexBinaryVolume, MountPath := kubePlexBinaryMount,
                           ReadOnly := false, SubPath := "" }],
        Lifecycle := none }
    let patches := patches ++ [addInitContainer pod initContainer]
    match addVolumeMount pod pmsContainerIdx
        { Name := kubePlexBinaryVolume, MountPath := kubePlexBinaryMount,
          ReadOnly := false, SubPath := "" } with
    | none => Result.fault
    | some mountOp =>
      let patches := patches ++ [mountOp]
      match addLifecycleHook pod pmsContainerIdx with
      | none => Result.fault
      | some hookOp =>
        let patches := patches ++ [hookOp]
        match appendEnvVars pod pmsContainerIdx (buildEnvVars cfg) patches with
        | none => Result.fault
        | some patches => Result.ok patches

/-! ## Specification-side notions and example pods -/

/-- The value is `true` up to the case of each of its four letters (the case-insensitive
comparison of the gate, as the specification words it). -/
def equalFoldTrue (v : String) : Bool :=
  match v.data with
  | [a, b, c, d] =>
    (a == 't' || a == 'T') && (b == 'r' || b == 'R') && (c == 'u' || c == 'U') &&
      (d == 'e' || d == 'E')
  | _ => false

/-- Claim name of the first volume, in list order, that has a claim reference and whose
lower-cased name is `role`. -/
def firstClaim (role : String) : List Volume → Option String
  | [] => none
  | vol :: rest =>
    match vol.PersistentVolumeClaim with
    | some pvc => if toLower vol.Name = role then some pvc.ClaimName else firstClaim role rest
    | none => firstClaim role rest

/-- Claim name of the first volume, in list order, that has a claim reference with a
non-empty claim name and whose lower-cased name is `role`. -/
def firstBoundClaim (role : String) : List Volume → Option String
  | [] => none
  | vol :: rest =>
    match vol.PersistentVolumeClaim with
    | some pvc =>
      if toLower vol.Name = role ∧ pvc.ClaimName ≠ "" then some pvc.ClaimName
      else firstBoundClaim role rest
    | none => firstBoundClaim role rest

/-- A PVC field after annotation and volume scan: the annotation value when it is
non-empty, otherwise the first bound claim of the role, otherwise empty. -/
def resolvePVC (ann role : String) (vols : List Volume) : String :=
  if ann = "" then (firstBoundClaim role vols).getD "" else ann

/-- The target container name after resolution: the `pms-container` annotation value
when it is non-empty, otherwise the name of the first container, otherwise empty. -/
def resolvedContainer (pod : Pod) : String :=
  let a := mapIndex (pod.Annotations.getD []) AnnotationPMSContainer
  if a = "" then
    match pod.Spec.Containers with
    | c :: _ => c.Name
    | [] => ""
  else a

/-- A volume backed by the persistent volume claim `claim`. -/
def pvcVolume (name claim : String) : Volume :=
  { Name := name, PersistentVolumeClaim := some { ClaimName := claim, ReadOnly := false },
    EmptyDir := none }

/-- A container with a name and an image and nothing else. -/
def plainContainer (name image : String) : Container :=
  { Name := name, Image := image, Command := [], Env := [], VolumeMounts := [], Lifecycle := none }

/-- Scenario A: opted in, `transcode-pvc=tc1`, one container `plex`. -/
def scenarioA : Pod :=
  { Annotations := some [(AnnotationEnabled, "true"), (AnnotationTranscodePVC, "tc1")],
    Spec := { Volumes := [], InitContainers := [],
              Containers := [plainContainer "plex" "plexinc/pms:1"] } }

/-- Scenario B: scenario A with a volume `data` backed by the claim `mydata`. -/
def scenarioB : Pod :=
  { scenarioA with
    Spec := { scenarioA.Spec with Volumes := [pvcVolume "data" "mydata"] } }

/-- All three PVC annotations set, and PVC volumes of all three roles with other claims. -/
def annotatedPod : Pod :=
  { Annotations := some [(AnnotationDataPVC, "ann-data"), (AnnotationConfigPVC, "ann-config"),
      (AnnotationTranscodePVC, "ann-transcode")],
    Spec := { Volumes := [pvcVolume "data" "vol-data", pvcVolume "config" "vol-config",
                pvcVolume "transcode" "vol-transcode"],
              InitContainers := [],
              Containers := [plainContainer "plex" "plexinc/pms:1"] } }

/-- Two PVC volumes of the role `data`, the first with an empty claim name. -/
def twoDataVolumesPod : Pod :=
  { Annotations := some [(AnnotationTranscodePVC, "tc1")],
    Spec := { Volumes := [pvcVolume "data" "", pvcVolume "Data" "late"],
              InitContainers := [],
              Containers := [plainContainer "plex" "plexinc/pms:1"] } }

/-- A pod with a transcode PVC annotation and no containers. -/
def noContainersPod : Pod :=
  { Annotations := some [(AnnotationTranscodePVC, "tc1")],
    Spec := { Volumes := [], InitContainers := [], Containers := [] } }

/-- `i` is the index of the first container of `cs` named `name`, and `c` is that
container. -/
def IsFirstNamed (cs : List Container) (name : String) (i : Nat) (c : Container) : Prop :=
  cs[i]? = some c ∧ c.Name = name ∧ ∀ j < i, (cs[j]?).map Container.Name ≠ some name

/-- The volume injected by `CreatePatch`. -/
def binaryVolume : Volume :=
  { Name := "kube-plex-binary", PersistentVolumeClaim := none, EmptyDir := some { Medium := "" } }

/-- The volume mount injected by `CreatePatch`. -/
def binaryMount : VolumeMount :=
  { Name := "kube-plex-binary", MountPath := "/shared", ReadOnly := false, SubPath := "" }

/-- The post-start handler installed by `CreatePatch`, written out in full. -/
def waitAndCopyHook : LifecycleHandler :=
  { Exec := some { Command := ["/bin/sh", "-c",
      "until [ -f \"/usr/lib/plexmediaserver/Plex Transcoder\" ]; do sleep 1; done; cp \"/shared/kube-plex\" \"/usr/lib/plexmediaserver/Plex Transcoder\""] },
    HTTPGet := none }

/-- The value carried by a result, when there is one. -/
def Result.value? {α : Type} : Result α → Option α
  | Result.ok a => some a
  | Result.error _ => none
  | Result.fault => none

/-- The configuration ExtractConfig resolves for scenario A in namespace `media`. -/
def scenarioAConfig : Config :=
  { PMSService := "", DataPVC := "", ConfigPVC := "", TranscodePVC := "tc1",
    PMSContainer := "plex", PMSImage := "plexinc/pms:1",
    KubePlexImage := "ghcr.io/adamjacobmuller/kube-plex:latest", Namespace := "media" }

/-- A pod that already has a volume, an init container, and a second container `plex`,
named by the `pms-container` annotation, with a volume mount, an env variable, and a lifecycle with both hooks. -/
def populatedPod : Pod :=
  { Annotations := some [(AnnotationEnabled, "true"), (AnnotationTranscodePVC, "tc1"),
      (AnnotationPMSContainer, "plex")],
    Spec :=
      { Volumes := [pvcVolume "media" "library"],
        InitContainers := [plainContainer "setup" "busybox"],
        Containers :=
          [ plainContainer "sidecar" "envoy",
            { Name := "plex", Image := "plexinc/pms:1", Command := [],
              Env := [{ Name := "TZ", Value := "UTC", ValueFrom := none }],
              VolumeMounts := [{ Name := "media", MountPath := "/media", ReadOnly := true,
                                 SubPath := "" }],
              Lifecycle := some
                { PostStart := some { Exec := some { Command := ["/bin/true"] }, HTTPGet := none },
                  PreStop := some { Exec := some { Command := ["/bin/sync"] }, HTTPGet := none } } } ] } }

/-! ## Admission adapter (`handler.go`) -/

structure GroupVersionKind where
  Group : String
  Version : String
  Kind : String
  deriving DecidableEq, Repr

structure RawExtension where
  Raw : List UInt8
  deriving DecidableEq, Repr

structure AdmissionRequest where
  UID : String
  Kind : GroupVersionKind
  Namespace : String
  Name : String
  Object : RawExtension
  deriving DecidableEq, Repr

structure AdmissionReview where
  Request : Option AdmissionRequest
  deriving DecidableEq, Repr

structure Status where
  Message : String
  deriving DecidableEq, Repr

/-- The admission response. `Patch` holds the operations whose JSON encoding the Go field
carries (`none` for nil bytes). -/
structure AdmissionResponse where
  UID : String
  Allowed : Bool
  Result : Option Status
  Patch : Option (List PatchOperation)
  PatchType : Option String
  deriving DecidableEq, Repr

/-- The constant `admissionv1.PatchTypeJSONPatch`. -/
def PatchTypeJSONPatch : String := "JSONPatch"

/-- Handler handles admission webhook requests. -/
structure Handler where
  deriving DecidableEq, Repr

/-- The text of a core error (its `Error()` method, which is what `%v` prints). The Go
function `strconv.Quote` behind the verb `%q` is the parameter `quote`. -/
def CoreError.Error (quote : String → String) : CoreError → String
  | CoreError.transcodePVCRequired =>
    "transcode PVC is required: set " ++ AnnotationTranscodePVC ++ " annotation"
  | CoreError.containerNotFound name => "container " ++ quote name ++ " not found"

/-- The method `mutate` of `Handler`. The Go function `json.Unmarshal` into a pod is the
parameter `unmarshal` (the error it returns is represented by its text), and `quote` is
`strconv.Quote`. Logging is left out. `none` is a run-time fault of the core. -/
def Handler.mutate (_h : Handler) (unmarshal : List UInt8 → Except String Pod)
    (quote : String → String) (ar : AdmissionReview) : Option AdmissionResponse :=
  match ar.Request with
  | none =>
    some { UID := "", Allowed := true, Result := none, Patch := none, PatchType := none }
  | some req =>
    if req.Kind.Kind ≠ "Pod" then
      some { UID := "", Allowed := true, Result := none, Patch := none, PatchType := none }
    else
      match unmarshal req.Object.Raw with
      | Except.error err =>
        some { UID := "", Allowed := false,
               Result := some { Message := "could not unmarshal pod: " ++ err },
               Patch := none, PatchType := none }
      | Except.ok pod =>
        if !ShouldMutate pod then
          some { UID := "", Allowed := true, Result := none, Patch := none, PatchType := none }
        else
          match ExtractConfig pod req.Namespace with
          | Result.fault => none
          | Result.error err =>
            some { UID := "", Allowed := false,
                   Result := some { Message := "configuration error: " ++ err.Error quote },
                   Patch := none, PatchType := none }
          | Result.ok cfg =>
            match CreatePatch pod cfg with
            | Result.fault => none
            | Result.error err =>
              some { UID := "", Allowed := false,
                     Result := some { Message := "could not create patch: " ++ err.Error quote },
                     Patch := none, PatchType := none }
            | Result.ok patchBytes =>
              let patchType := PatchTypeJSONPatch
              some { UID := "", Allowed := true, Result := none, Patch := some patchBytes,
                     PatchType := some patchType }

/-! ## Further specification-side notions and example inputs -/

/-- JSON Patch semantics of one environment operation on the env list found at `envPath`:
an `add` at the array path sets the whole member to the given array, an `add` at the
append pointer appends the given element; every other operation leaves the list alone. -/
def applyEnvOp (envPath : String) (env : List EnvVar) (op : PatchOperation) : List EnvVar :=
  if op.Op = "add" ∧ op.Path = envPath then
    match op.Value with
    | PatchValue.envVars es => es
    | _ => env
  else if op.Op = "add" ∧ op.Path = envPath ++ "/-" then
    match op.Value with
    | PatchValue.envVar e => env ++ [e]
    | _ => env
  else env

/-- Applying a sequence of operations, in order, to an env list. -/
def applyEnvOps (envPath : String) (env : List EnvVar) (ops : List PatchOperation) :
    List EnvVar :=
  ops.foldl (applyEnvOp envPath) env

/-- Scenario D: scenario A with `pms-service=plexsvc`. -/
def scenarioD : Pod :=
  { scenarioA with
    Annotations := some [(AnnotationEnabled, "true"), (AnnotationTranscodePVC, "tc1"),
      (AnnotationPMSService, "plexsvc")] }

/-- Scenario E: scenario A with `pms-service=http://external:32400`. -/
def scenarioE : Pod :=
  { scenarioA with
    Annotations := some [(AnnotationEnabled, "true"), (AnnotationTranscodePVC, "tc1"),
      (AnnotationPMSService, "http://external:32400")] }

/-- The configuration ExtractConfig resolves for scenario D in namespace `media`. -/
def scenarioDConfig : Config :=
  { scenarioAConfig with PMSService := "plexsvc" }

/-- A pod whose only container has an empty name, with a transcode PVC annotation. -/
def unnamedContainerPod : Pod :=
  { Annotations := some [(AnnotationTranscodePVC, "tc1")],
    Spec := { Volumes := [], InitContainers := [], Containers := [plainContainer "" "img"] } }

/-- A pod without containers whose annotations name a target container. -/
def noContainersNamedPod : Pod :=
  { Annotations := some [(AnnotationTranscodePVC, "tc1"), (AnnotationPMSContainer, "plex")],
    Spec := { Volumes := [], InitContainers := [], Containers := [] } }

/-- A pod with two containers named `plex`, a `pms-container` annotation naming them, a
custom companion image, and no `pms-image` annotation. -/
def twinContainersPod : Pod :=
  { Annotations := some [(AnnotationEnabled, "true"), (AnnotationTranscodePVC, "tc1"),
      (AnnotationPMSContainer, "plex"), (AnnotationKubePlexImage, "example.org/kp:2")],
    Spec := { Volumes := [], InitContainers := [],
              Containers := [plainContainer "side" "envoy", plainContainer "plex" "first:1",
                plainContainer "plex" "second:2"] } }

/-- The configuration ExtractConfig resolves for `twinContainersPod` in namespace `media`. -/
def twinContainersConfig : Config :=
  { PMSService := "", DataPVC := "", ConfigPVC := "", TranscodePVC := "tc1",
    PMSContainer := "plex", PMSImage := "first:1", KubePlexImage := "example.org/kp:2",
    Namespace := "media" }

/-- A pod that is not opted in and has neither a transcode PVC nor a container. -/
def notEnabledPod : Pod :=
  { Annotations := some [(AnnotationEnabled, "false")],
    Spec := { Volumes := [], InitContainers := [], Containers := [] } }

/-- A pod that is opted in and has no transcode PVC. -/
def enabledNoTranscodePod : Pod :=
  { Annotations := some [(AnnotationEnabled, "true")],
    Spec := { Volumes := [], InitContainers := [],
              Containers := [plainContainer "plex" "plexinc/pms:1"] } }

/-- A decoder for the examples: the one-byte documents 1 to 4 decode to example pods and
everything else is rejected. -/
def exampleUnmarshal (raw : List UInt8) : Except String Pod :=
  if raw = [1] then Except.ok scenarioA
  else if raw = [2] then Except.ok notEnabledPod
  else if raw = [3] then Except.ok enabledNoTranscodePod
  else if raw = [4] then
    Except.ok { scenarioA with
      Annotations := some [(AnnotationEnabled, "true"), (AnnotationTranscodePVC, "tc1"),
        (AnnotationPMSContainer, "missing")] }
  else Except.error "unexpected end of JSON input"

/-- Quoting of a string that needs no escapes, as `strconv.Quote` does it. -/
def exampleQuote (s : String) : String := "\"" ++ s ++ "\""

/-- An admission request for a `Pod` in namespace `media` with the given raw object. -/
def podRequest (raw : List UInt8) : AdmissionReview :=
  { Request := some
      { UID := "uid-1", Kind := { Group := "", Version := "v1", Kind := "Pod" },
        Namespace := "media", Name := "plex-0", Object := { Raw := raw } } }

/-! ## Theorems -/

theorem char_eq_iff_toNat (c d : Char) : c = d ↔ c.toNat = d.toNat := by
  constructor
  · intro h; rw [h]
  · intro h
    apply Char.ext
    apply UInt32.ext
    exact h

/-- lower-casing hits an ASCII lower-case letter other than i and k only from the letter or its capital. -/
theorem unicodeToLower_eq_iff (c : Char) (n : Nat) (hn : 97 ≤ n ∧ n ≤ 122) (hi : n ≠ 105)
    (hk : n ≠ 107) :
    unicodeToLower c = Char.ofNat n ↔ (c.toNat = n ∨ c.toNat = n - 32) := by
  obtain ⟨h1, h2⟩ := hn
  have hv : (Char.ofNat n).toNat = n := by
    interval_cases n <;> rfl
  unfold unicodeToLower
  split_ifs with ha hb hc
  · obtain ⟨h65, h90⟩ := ha
    rw [char_eq_iff_toNat, hv]
    have : (Char.ofNat (c.toNat + 32)).toNat = c.toNat + 32 := by
      generalize c.toNat = m at *
      interval_cases m <;> rfl
    rw [this]; omega
  · rw [char_eq_iff_toNat, hv]
    have : (Char.ofNat 105).toNat = 105 := rfl
    rw [this]; omega
  · rw [char_eq_iff_toNat, hv]
    have : (Char.ofNat 107).toNat = 107 := rfl
    rw [this]; omega
  · rw [char_eq_iff_toNat, hv]; omega

theorem unicodeToLower_eq_letter (c lo up : Char) (hlo : 97 ≤ lo.toNat ∧ lo.toNat ≤ 122)
    (hi : lo.toNat ≠ 105) (hk : lo.toNat ≠ 107) (hup : up.toNat = lo.toNat - 32) :
    unicodeToLower c = lo ↔ (c = lo ∨ c = up) := by
  have hlo2 : lo = Char.ofNat lo.toNat := by
    rw [char_eq_iff_toNat]
    obtain ⟨h1, h2⟩ := hlo
    generalize lo.toNat = m at *
    interval_cases m <;> rfl
  rw [char_eq_iff_toNat c lo, char_eq_iff_toNat c up, hup]
  conv_lhs => rw [hlo2]
  exact unicodeToLower_eq_iff c lo.toNat hlo hi hk

theorem toLower_eq_true_iff (v : String) : toLower v = "true" ↔ equalFoldTrue v = true := by
  have e : toLower v = "true" ↔ v.data.map unicodeToLower = ['t', 'r', 'u', 'e'] := by
    unfold toLower
    constructor
    · intro h; exact congrArg String.data h
    · intro h; rw [h]
  have ht := fun c => unicodeToLower_eq_letter c 't' 'T' (by decide) (by decide) (by decide) (by decide)
  have hr := fun c => unicodeToLower_eq_letter c 'r' 'R' (by decide) (by decide) (by decide) (by decide)
  have hu := fun c => unicodeToLower_eq_letter c 'u' 'U' (by decide) (by decide) (by decide) (by decide)
  have he := fun c => unicodeToLower_eq_letter c 'e' 'E' (by decide) (by decide) (by decide) (by decide)
  rw [e]
  unfold equalFoldTrue
  rcases v with ⟨l⟩
  match l with
  | [] => simp
  | [_] => simp
  | [_, _] => simp
  | [_, _, _] => simp
  | [a, b, c, d] => simp [ht, hr, hu, he, and_assoc]
  | _ :: _ :: _ :: _ :: _ :: _ => simp

/-- C1: ShouldMutate returns true exactly when the annotation map of the pod exists and
holds the key `kube-plex.io/enabled` with a value that is `true` up to the case of its four
letters; a nil map, a missing key and every other value give false. The values `true`,
`True`, `TRUE` are accepted and `false`, `1`, `yes`, ` true` and the empty string are not. -/
theorem ShouldMutate_iff (pod : Pod) :
    (ShouldMutate pod = true ↔
      ∃ annotations v, pod.Annotations = some annotations ∧
        annotations.lookup AnnotationEnabled = some v ∧ equalFoldTrue v = true) ∧
    (["true", "True", "TRUE", "tRuE"].all equalFoldTrue = true) ∧
    (["false", "1", "yes", " true", "", "true ", "truee"].all (fun v => !equalFoldTrue v) = true) := by
  refine ⟨?_, by decide, by decide⟩
  unfold ShouldMutate
  cases hA : pod.Annotations with
  | none => simp
  | some m =>
    simp only [beq_iff_eq, toLower_eq_true_iff, mapIndex, Option.some.injEq]
    cases hl : m.lookup AnnotationEnabled with
    | none =>
      simp only [Option.getD_none]
      constructor
      · intro h; exact absurd h (by decide)
      · rintro ⟨m2, v, rfl, h, _⟩
        rw [hl] at h
        cases h
    | some v =>
      simp only [Option.getD_some]
      constructor
      · intro h; exact ⟨m, v, rfl, hl, h⟩
      · rintro ⟨m2, v2, rfl, h, h2⟩
        rw [hl] at h
        cases h
        exact h2

theorem firstBoundClaim_ne_empty (role : String) (vols : List Volume) (s : String)
    (h : firstBoundClaim role vols = some s) : s ≠ "" := by
  induction vols with
  | nil => simp [firstBoundClaim] at h
  | cons v vs ih =>
    unfold firstBoundClaim at h
    cases hp : v.PersistentVolumeClaim with
    | none => rw [hp] at h; exact ih h
    | some pvc =>
      rw [hp] at h
      simp only at h
      split_ifs at h with hc
      · cases h; exact hc.2
      · exact ih h

theorem resolvePVC_cons (a role : String) (v : Volume) (vs : List Volume) :
    resolvePVC a role (v :: vs) =
      resolvePVC
        (match v.PersistentVolumeClaim with
          | some pvc => if toLower v.Name = role ∧ a = "" then pvc.ClaimName else a
          | none => a) role vs := by
  unfold resolvePVC
  cases hp : v.PersistentVolumeClaim with
  | none => simp [firstBoundClaim, hp]
  | some pvc =>
    simp only [firstBoundClaim, hp]
    by_cases ha : a = ""
    · by_cases hr : toLower v.Name = role
      · by_cases hc : pvc.ClaimName = ""
        · simp [ha, hr, hc]
        · simp [ha, hr, hc]
      · simp [ha, hr]
    · simp [ha]

theorem foldl_detectVolume (vols : List Volume) (cfg : Config) :
    vols.foldl detectVolume cfg =
      { cfg with
        DataPVC := resolvePVC cfg.DataPVC "data" vols
        ConfigPVC := resolvePVC cfg.ConfigPVC "config" vols
        TranscodePVC := resolvePVC cfg.TranscodePVC "transcode" vols } := by
  induction vols generalizing cfg with
  | nil =>
    simp only [List.foldl_nil, resolvePVC, firstBoundClaim, Option.getD_none]
    rcases cfg with ⟨s, d, c, t, pc, pi, ki, n⟩
    simp only [Config.mk.injEq, true_and, and_true]
    refine ⟨?_, ?_, ?_⟩ <;> split_ifs with h <;> simp [h]
  | cons v vs ih =>
    rw [List.foldl_cons, ih]
    rw [resolvePVC_cons cfg.DataPVC, resolvePVC_cons cfg.ConfigPVC,
      resolvePVC_cons cfg.TranscodePVC]
    unfold detectVolume
    cases hp : v.PersistentVolumeClaim with
    | none => rfl
    | some pvc =>
      simp only
      by_cases h1 : toLower v.Name = "data"
      · have h2 : ¬ toLower v.Name = "config" := by rw [h1]; decide
        have h3 : ¬ toLower v.Name = "transcode" := by rw [h1]; decide
        by_cases hd : cfg.DataPVC = "" <;> simp [h1, h2, h3, hd]
      · by_cases h2 : toLower v.Name = "config"
        · have h3 : ¬ toLower v.Name = "transcode" := by rw [h2]; decide
          by_cases hd : cfg.ConfigPVC = "" <;> simp [h1, h2, h3, hd]
        · by_cases h3 : toLower v.Name = "transcode"
          · by_cases hd : cfg.TranscodePVC = "" <;> simp [h1, h2, h3, hd]
          · simp [h1, h2, h3]

theorem resolvePVC_of_ne (a role : String) (vols : List Volume) (h : a ≠ "") :
    resolvePVC a role vols = a := by
  simp [resolvePVC, h]

theorem ExtractConfig_eq (pod : Pod) (ns : String) :
    ExtractConfig pod ns =
      if resolvePVC (mapIndex (pod.Annotations.getD []) AnnotationTranscodePVC) "transcode"
          pod.Spec.Volumes = "" then
        Result.error CoreError.transcodePVCRequired
      else
        Result.ok
          { PMSService := mapIndex (pod.Annotations.getD []) AnnotationPMSService
            DataPVC := resolvePVC (mapIndex (pod.Annotations.getD []) AnnotationDataPVC) "data"
              pod.Spec.Volumes
            ConfigPVC := resolvePVC (mapIndex (pod.Annotations.getD []) AnnotationConfigPVC)
              "config" pod.Spec.Volumes
            TranscodePVC := resolvePVC (mapIndex (pod.Annotations.getD []) AnnotationTranscodePVC)
              "transcode" pod.Spec.Volumes
            PMSContainer := resolvedContainer pod
            PMSImage :=
              if mapIndex (pod.Annotations.getD []) AnnotationPMSImage = "" then
                containerImage (resolvedContainer pod) pod.Spec.Containers ""
              else mapIndex (pod.Annotations.getD []) AnnotationPMSImage
            KubePlexImage :=
              if mapIndex (pod.Annotations.getD []) AnnotationKubePlexImage = "" then
                DefaultKubePlexImage
              else mapIndex (pod.Annotations.getD []) AnnotationKubePlexImage
            Namespace := ns } := by
  generalize hA : pod.Annotations.getD [] = a
  have hdet : (if mapIndex a AnnotationDataPVC = "" ∨ mapIndex a AnnotationConfigPVC = "" ∨
        mapIndex a AnnotationTranscodePVC = "" then
      detectPVCs pod
        { PMSService := mapIndex a AnnotationPMSService, DataPVC := mapIndex a AnnotationDataPVC,
          ConfigPVC := mapIndex a AnnotationConfigPVC,
          TranscodePVC := mapIndex a AnnotationTranscodePVC, PMSContainer := "", PMSImage := "",
          KubePlexImage := "", Namespace := ns }
      else
        { PMSService := mapIndex a AnnotationPMSService, DataPVC := mapIndex a AnnotationDataPVC,
          ConfigPVC := mapIndex a AnnotationConfigPVC,
          TranscodePVC := mapIndex a AnnotationTranscodePVC, PMSContainer := "", PMSImage := "",
          KubePlexImage := "", Namespace := ns }) =
      { PMSService := mapIndex a AnnotationPMSService,
        DataPVC := resolvePVC (mapIndex a AnnotationDataPVC) "data" pod.Spec.Volumes,
        ConfigPVC := resolvePVC (mapIndex a AnnotationConfigPVC) "config" pod.Spec.Volumes,
        TranscodePVC := resolvePVC (mapIndex a AnnotationTranscodePVC) "transcode" pod.Spec.Volumes,
        PMSContainer := "", PMSImage := "", KubePlexImage := "", Namespace := ns } := by
    split_ifs with h
    · rw [detectPVCs, foldl_detectVolume]
    · simp only [not_or] at h
      rw [resolvePVC_of_ne _ _ _ h.1, resolvePVC_of_ne _ _ _ h.2.1, resolvePVC_of_ne _ _ _ h.2.2]
  by_cases ht : resolvePVC (mapIndex a AnnotationTranscodePVC) "transcode" pod.Spec.Volumes = ""
  · simp only [ExtractConfig, hA, hdet, ht, if_true]
  · by_cases hn : mapIndex a AnnotationPMSContainer = "" <;>
    by_cases hi : mapIndex a AnnotationPMSImage = "" <;>
    by_cases hk : mapIndex a AnnotationKubePlexImage = "" <;>
    cases hc : pod.Spec.Containers <;>
    simp [ExtractConfig, hA, hdet, ht, hn, hi, hk, hc, containerAt, resolvedContainer]

theorem firstBoundClaim_eq_none_iff (role : String) (vols : List Volume) :
    firstBoundClaim role vols = none ↔
      ∀ vol ∈ vols, ∀ pvc, vol.PersistentVolumeClaim = some pvc → toLower vol.Name = role →
        pvc.ClaimName = "" := by
  induction vols with
  | nil => simp [firstBoundClaim]
  | cons v vs ih =>
    unfold firstBoundClaim
    cases hp : v.PersistentVolumeClaim with
    | none => simp [ih, hp]
    | some pvc =>
      by_cases hr : toLower v.Name = role <;> by_cases hc : pvc.ClaimName = "" <;>
        simp [ih, hr, hc, hp]

theorem mapIndex_of_lookup (m : List (String × String)) (k v : String)
    (h : m.lookup k = some v) : mapIndex m k = v := by
  simp [mapIndex, h]

/-- C2: when ExtractConfig succeeds, a non-empty `data-pvc`, `config-pvc` or
`transcode-pvc` annotation value is the resolved DataPVC, ConfigPVC or TranscodePVC,
whatever the volumes of the pod are. -/
theorem ExtractConfig_annotation_precedence (pod : Pod) (ns : String) (cfg : Config)
    (h : ExtractConfig pod ns = Result.ok cfg) :
    (∀ m v, pod.Annotations = some m → m.lookup AnnotationDataPVC = some v → v ≠ "" →
      cfg.DataPVC = v) ∧
    (∀ m v, pod.Annotations = some m → m.lookup AnnotationConfigPVC = some v → v ≠ "" →
      cfg.ConfigPVC = v) ∧
    (∀ m v, pod.Annotations = some m → m.lookup AnnotationTranscodePVC = some v → v ≠ "" →
      cfg.TranscodePVC = v) := by
  rw [ExtractConfig_eq] at h
  by_cases ht : resolvePVC (mapIndex (pod.Annotations.getD []) AnnotationTranscodePVC)
      "transcode" pod.Spec.Volumes = ""
  · rw [if_pos ht] at h; cases h
  rw [if_neg ht] at h
  cases h
  refine ⟨?_, ?_, ?_⟩ <;> intro m v hm hl hv <;>
    simp only [hm, Option.getD_some, mapIndex_of_lookup m _ v hl, resolvePVC_of_ne _ _ _ hv]

theorem ExtractConfig_annotation_precedence_witness :
    ExtractConfig annotatedPod "media" =
      Result.ok
        { PMSService := "", DataPVC := "ann-data", ConfigPVC := "ann-config",
          TranscodePVC := "ann-transcode", PMSContainer := "plex", PMSImage := "plexinc/pms:1",
          KubePlexImage := DefaultKubePlexImage, Namespace := "media" } ∧
    (∀ m v, annotatedPod.Annotations = some m → m.lookup AnnotationDataPVC = some v → v ≠ "" →
      "ann-data" = v) :=
  ⟨by decide,
    (ExtractConfig_annotation_precedence annotatedPod "media"
      { PMSService := "", DataPVC := "ann-data", ConfigPVC := "ann-config",
        TranscodePVC := "ann-transcode", PMSContainer := "plex", PMSImage := "plexinc/pms:1",
        KubePlexImage := DefaultKubePlexImage, Namespace := "media" } (by decide)).1⟩

theorem ExtractConfig_ok_iff (pod : Pod) (ns : String) (cfg : Config) :
    ExtractConfig pod ns = Result.ok cfg ↔
      resolvePVC (mapIndex (pod.Annotations.getD []) AnnotationTranscodePVC) "transcode"
          pod.Spec.Volumes ≠ "" ∧
      cfg =
        { PMSService := mapIndex (pod.Annotations.getD []) AnnotationPMSService
          DataPVC := resolvePVC (mapIndex (pod.Annotations.getD []) AnnotationDataPVC) "data"
            pod.Spec.Volumes
          ConfigPVC := resolvePVC (mapIndex (pod.Annotations.getD []) AnnotationConfigPVC)
            "config" pod.Spec.Volumes
          TranscodePVC := resolvePVC (mapIndex (pod.Annotations.getD []) AnnotationTranscodePVC)
            "transcode" pod.Spec.Volumes
          PMSContainer := resolvedContainer pod
          PMSImage :=
            if mapIndex (pod.Annotations.getD []) AnnotationPMSImage = "" then
              containerImage (resolvedContainer pod) pod.Spec.Containers ""
            else mapIndex (pod.Annotations.getD []) AnnotationPMSImage
          KubePlexImage :=
            if mapIndex (pod.Annotations.getD []) AnnotationKubePlexImage = "" then
              DefaultKubePlexImage
            else mapIndex (pod.Annotations.getD []) AnnotationKubePlexImage
          Namespace := ns } := by
  rw [ExtractConfig_eq]
  by_cases ht : resolvePVC (mapIndex (pod.Annotations.getD []) AnnotationTranscodePVC)
      "transcode" pod.Spec.Volumes = ""
  · rw [if_pos ht]
    constructor
    · intro h; cases h
    · intro h; exact absurd ht h.1
  · rw [if_neg ht]
    constructor
    · intro h
      cases h
      exact ⟨ht, rfl⟩
    · rintro ⟨_, h⟩
      rw [h]

/-- C3 (as stated, refuted): with no `data-pvc` annotation and two PVC volumes of the role
`data`, the first of which has an empty claim name, ExtractConfig succeeds and DataPVC is
the claim name of the later volume, not that of the first matching volume. -/
theorem first_match_counterexample :
    ExtractConfig twoDataVolumesPod "media" =
      Result.ok
        { PMSService := "", DataPVC := "late", ConfigPVC := "", TranscodePVC := "tc1",
          PMSContainer := "plex", PMSImage := "plexinc/pms:1",
          KubePlexImage := DefaultKubePlexImage, Namespace := "media" } ∧
    mapIndex (twoDataVolumesPod.Annotations.getD []) AnnotationDataPVC = "" ∧
    firstClaim "data" twoDataVolumesPod.Spec.Volumes = some "" ∧
    "late" ≠ (firstClaim "data" twoDataVolumesPod.Spec.Volumes).getD "" := by
  decide

/-- C3 (amended): when ExtractConfig succeeds, each of DataPVC, ConfigPVC, TranscodePVC
whose annotation is absent or empty is the claim name of the first volume in list order
that has a claim reference with a non-empty claim name and whose lower-cased name is the
role literal, and is empty when there is no such volume. -/
theorem ExtractConfig_first_bound_claim (pod : Pod) (ns : String) (cfg : Config)
    (h : ExtractConfig pod ns = Result.ok cfg) :
    (mapIndex (pod.Annotations.getD []) AnnotationDataPVC = "" →
      cfg.DataPVC = (firstBoundClaim "data" pod.Spec.Volumes).getD "") ∧
    (mapIndex (pod.Annotations.getD []) AnnotationConfigPVC = "" →
      cfg.ConfigPVC = (firstBoundClaim "config" pod.Spec.Volumes).getD "") ∧
    (mapIndex (pod.Annotations.getD []) AnnotationTranscodePVC = "" →
      cfg.TranscodePVC = (firstBoundClaim "transcode" pod.Spec.Volumes).getD "") := by
  obtain ⟨_, rfl⟩ := (ExtractConfig_ok_iff pod ns cfg).1 h
  refine ⟨?_, ?_, ?_⟩ <;> intro he <;> simp [resolvePVC, he]

theorem ExtractConfig_first_bound_claim_witness :
    ExtractConfig scenarioB "media" =
      Result.ok
        { PMSService := "", DataPVC := "mydata", ConfigPVC := "", TranscodePVC := "tc1",
          PMSContainer := "plex", PMSImage := "plexinc/pms:1",
          KubePlexImage := DefaultKubePlexImage, Namespace := "media" } ∧
    "mydata" = (firstBoundClaim "data" scenarioB.Spec.Volumes).getD "" :=
  ⟨by decide,
    (ExtractConfig_first_bound_claim scenarioB "media"
      { PMSService := "", DataPVC := "mydata", ConfigPVC := "", TranscodePVC := "tc1",
        PMSContainer := "plex", PMSImage := "plexinc/pms:1",
        KubePlexImage := DefaultKubePlexImage, Namespace := "media" } (by decide)).1 (by decide)⟩

/-- C4: ExtractConfig returns the transcode-PVC error exactly when the `transcode-pvc`
annotation is absent or empty and every PVC volume whose lower-cased name is `transcode`
has an empty claim name; in every other case it returns a configuration. In particular a
pod without that annotation and without a PVC volume named `transcode` is rejected, and
the containers, the other PVCs and the service play no part. -/
theorem ExtractConfig_fails_iff (pod : Pod) (ns : String) :
    (ExtractConfig pod ns = Result.error CoreError.transcodePVCRequired ↔
      (mapIndex (pod.Annotations.getD []) AnnotationTranscodePVC = "" ∧
        ∀ vol ∈ pod.Spec.Volumes, ∀ pvc, vol.PersistentVolumeClaim = some pvc →
          toLower vol.Name = "transcode" → pvc.ClaimName = "")) ∧
    ((∃ cfg, ExtractConfig pod ns = Result.ok cfg) ↔
      ¬ ExtractConfig pod ns = Result.error CoreError.transcodePVCRequired) ∧
    (((∀ m, pod.Annotations = some m → m.lookup AnnotationTranscodePVC = none) ∧
        ∀ vol ∈ pod.Spec.Volumes,
          vol.PersistentVolumeClaim = none ∨ toLower vol.Name ≠ "transcode") →
      ExtractConfig pod ns = Result.error CoreError.transcodePVCRequired) := by
  have key : ExtractConfig pod ns = Result.error CoreError.transcodePVCRequired ↔
      (mapIndex (pod.Annotations.getD []) AnnotationTranscodePVC = "" ∧
        ∀ vol ∈ pod.Spec.Volumes, ∀ pvc, vol.PersistentVolumeClaim = some pvc →
          toLower vol.Name = "transcode" → pvc.ClaimName = "") := by
    rw [← firstBoundClaim_eq_none_iff, ExtractConfig_eq]
    by_cases ha : mapIndex (pod.Annotations.getD []) AnnotationTranscodePVC = ""
    · cases hf : firstBoundClaim "transcode" pod.Spec.Volumes with
      | none => simp [resolvePVC, ha, hf]
      | some s =>
        have hs := firstBoundClaim_ne_empty _ _ _ hf
        simp [resolvePVC, ha, hf, hs]
    · simp [resolvePVC, ha]
  refine ⟨key, ?_, ?_⟩
  · rw [ExtractConfig_eq]
    by_cases ht : resolvePVC (mapIndex (pod.Annotations.getD []) AnnotationTranscodePVC)
        "transcode" pod.Spec.Volumes = ""
    · simp [ht]
    · simp [ht]
  · rintro ⟨hm, hv⟩
    rw [key]
    constructor
    · cases hA : pod.Annotations with
      | none => simp [mapIndex]
      | some m => simp [mapIndex, hm m hA]
    · intro vol hmem pvc hp hn
      rcases hv vol hmem with h | h
      · rw [hp] at h; cases h
      · exact absurd hn h

/-- C5 (as stated, refuted): a pod with a transcode PVC and no containers resolves
successfully with an empty PMSContainer. -/
theorem config_invariant_counterexample :
    ExtractConfig noContainersPod "media" =
      Result.ok
        { PMSService := "", DataPVC := "", ConfigPVC := "", TranscodePVC := "tc1",
          PMSContainer := "", PMSImage := "",
          KubePlexImage := DefaultKubePlexImage, Namespace := "media" } := by
  decide

/-- C5 (amended): whenever ExtractConfig returns a configuration its TranscodePVC is
non-empty, and its PMSContainer is empty exactly when the `pms-container` annotation is
absent or empty and the pod has no container or a first container with an empty name. -/
theorem ExtractConfig_invariant (pod : Pod) (ns : String) (cfg : Config)
    (h : ExtractConfig pod ns = Result.ok cfg) :
    cfg.TranscodePVC ≠ "" ∧
    (cfg.PMSContainer = "" ↔
      (mapIndex (pod.Annotations.getD []) AnnotationPMSContainer = "" ∧
        ∀ c ∈ pod.Spec.Containers.head?, c.Name = "")) := by
  obtain ⟨ht, rfl⟩ := (ExtractConfig_ok_iff pod ns cfg).1 h
  refine ⟨ht, ?_⟩
  simp only [resolvedContainer]
  by_cases hn : mapIndex (pod.Annotations.getD []) AnnotationPMSContainer = ""
  · cases hc : pod.Spec.Containers <;> simp [hn]
  · simp [hn]

theorem ExtractConfig_invariant_witness :
    ExtractConfig scenarioA "media" =
      Result.ok
        { PMSService := "", DataPVC := "", ConfigPVC := "", TranscodePVC := "tc1",
          PMSContainer := "plex", PMSImage := "plexinc/pms:1",
          KubePlexImage := DefaultKubePlexImage, Namespace := "media" } ∧
    "tc1" ≠ "" :=
  ⟨by decide,
    (ExtractConfig_invariant scenarioA "media"
      { PMSService := "", DataPVC := "", ConfigPVC := "", TranscodePVC := "tc1",
        PMSContainer := "plex", PMSImage := "plexinc/pms:1",
        KubePlexImage := DefaultKubePlexImage, Namespace := "media" } (by decide)).1⟩

theorem toString_natCast (k : Nat) : toString ((k : Nat) : Int) = toString k := rfl

theorem containerAt_natCast (pod : Pod) (k : Nat) :
    containerAt pod ((k : Nat) : Int) = pod.Spec.Containers[k]? := by
  unfold containerAt
  have h : ¬ ((k : Nat) : Int) < 0 := by omega
  rw [if_neg h]
  simp

theorem findPMSContainerIdx_none (name : String) (cs : List Container) (i : Nat)
    (h : ∀ c ∈ cs, c.Name ≠ name) : findPMSContainerIdx name cs i = -1 := by
  induction cs generalizing i with
  | nil => rfl
  | cons c cs ih =>
    unfold findPMSContainerIdx
    rw [if_neg (h c (List.mem_cons_self _ _))]
    exact ih (i + 1) (fun d hd => h d (List.mem_cons_of_mem _ hd))

theorem findPMSContainerIdx_some (name : String) (cs : List Container) (i : Nat)
    (h : ∃ c ∈ cs, c.Name = name) :
    ∃ k c, IsFirstNamed cs name k c ∧ findPMSContainerIdx name cs i = ((i + k : Nat) : Int) := by
  induction cs generalizing i with
  | nil => simp at h
  | cons c cs ih =>
    unfold findPMSContainerIdx
    by_cases hc : c.Name = name
    · rw [if_pos hc]
      refine ⟨0, c, ⟨by simp, hc, ?_⟩, by simp⟩
      intro j hj
      omega
    · rw [if_neg hc]
      have h2 : ∃ d ∈ cs, d.Name = name := by
        obtain ⟨d, hd, hdn⟩ := h
        rcases List.mem_cons.1 hd with rfl | hd
        · exact absurd hdn hc
        · exact ⟨d, hd, hdn⟩
      obtain ⟨k, d, ⟨hk, hdn, hfirst⟩, hidx⟩ := ih (i + 1) h2
      refine ⟨k + 1, d, ⟨by simpa using hk, hdn, ?_⟩, ?_⟩
      · intro j hj
        cases j with
        | zero => simpa using hc
        | succ j => simpa using hfirst j (by omega)
      · rw [hidx]
        congr 1
        omega

theorem IsFirstNamed_unique (cs : List Container) (name : String) (i j : Nat)
    (c d : Container) (h1 : IsFirstNamed cs name i c) (h2 : IsFirstNamed cs name j d) :
    i = j ∧ c = d := by
  obtain ⟨hi, hin, hif⟩ := h1
  obtain ⟨hj, hjn, hjf⟩ := h2
  have hij : i = j := by
    rcases Nat.lt_trichotomy i j with h | h | h
    · exact absurd (by simp [hi, hin]) (hjf i h)
    · exact h
    · exact absurd (by simp [hj, hjn]) (hif j h)
  subst hij
  rw [hi] at hj
  exact ⟨rfl, Option.some.inj hj⟩

theorem appendEnvVars_eq (pod : Pod) (idx : Int) (c : Container)
    (hc : containerAt pod idx = some c) (envs : List EnvVar) (patches : List PatchOperation) :
    appendEnvVars pod idx envs patches =
      some (patches ++ envs.map (fun env =>
        if c.Env.length = 0 then
          { Op := "add", Path := "/spec/containers/" ++ toString idx ++ "/env",
            Value := PatchValue.envVars [env] }
        else
          { Op := "add", Path := "/spec/containers/" ++ toString idx ++ "/env" ++ "/-",
            Value := PatchValue.envVar env })) := by
  induction envs generalizing patches with
  | nil => simp [appendEnvVars]
  | cons e es ih =>
    by_cases h : c.Env.length = 0 <;> simp [appendEnvVars, addEnvVar, hc, h, ih]

/-- The patch built for a pod whose first container named `cfg.PMSContainer` is `c`, at
index `k`. -/
theorem CreatePatch_of_first (pod : Pod) (cfg : Config) (k : Nat) (c : Container)
    (h : IsFirstNamed pod.Spec.Containers cfg.PMSContainer k c) :
    CreatePatch pod cfg =
      Result.ok
        ([ addVolume pod binaryVolume,
           addInitContainer pod
             { Name := "kube-plex-init", Image := cfg.KubePlexImage,
               Command := ["cp", "/kube-plex", "/shared/kube-plex"], Env := [],
               VolumeMounts := [binaryMount], Lifecycle := none },
           (if c.VolumeMounts.length = 0 then
              { Op := "add", Path := "/spec/containers/" ++ toString k ++ "/volumeMounts",
                Value := PatchValue.volumeMounts [binaryMount] }
            else
              { Op := "add", Path := "/spec/containers/" ++ toString k ++ "/volumeMounts/-",
                Value := PatchValue.volumeMount binaryMount }),
           (match c.Lifecycle with
            | some existing =>
              { Op := "replace", Path := "/spec/containers/" ++ toString k ++ "/lifecycle",
                Value := PatchValue.lifecycle
                  { PostStart := some waitAndCopyHook, PreStop := existing.PreStop } }
            | none =>
              { Op := "add", Path := "/spec/containers/" ++ toString k ++ "/lifecycle",
                Value := PatchValue.lifecycle
                  { PostStart := some waitAndCopyHook, PreStop := none } }) ] ++
          (buildEnvVars cfg).map (fun env =>
            if c.Env.length = 0 then
              { Op := "add", Path := "/spec/containers/" ++ toString k ++ "/env",
                Value := PatchValue.envVars [env] }
            else
              { Op := "add", Path := "/spec/containers/" ++ toString k ++ "/env/-",
                Value := PatchValue.envVar env })) := by
  have hex : ∃ d ∈ pod.Spec.Containers, d.Name = cfg.PMSContainer :=
    ⟨c, List.getElem?_mem h.1, h.2.1⟩
  obtain ⟨k2, c2, hf, hidx⟩ := findPMSContainerIdx_some cfg.PMSContainer pod.Spec.Containers 0 hex
  obtain ⟨rfl, rfl⟩ := IsFirstNamed_unique _ _ _ _ _ _ h hf
  rw [Nat.zero_add] at hidx
  have hat : containerAt pod ((k : Nat) : Int) = some c := by
    rw [containerAt_natCast]; exact h.1
  have hne : ¬ ((k : Nat) : Int) = -1 := by omega
  have hcmd : postStartCommand = ["/bin/sh", "-c",
      "until [ -f \"/usr/lib/plexmediaserver/Plex Transcoder\" ]; do sleep 1; done; cp \"/shared/kube-plex\" \"/usr/lib/plexmediaserver/Plex Transcoder\""] := by
    decide
  have hmnt : kubePlexBinaryMount ++ "/kube-plex" = "/shared/kube-plex" := by decide
  have p1 : ∀ s : String, s ++ "/volumeMounts" ++ "/-" = s ++ "/volumeMounts/-" := by
    intro s; rw [String.append_assoc]; rfl
  have p2 : ∀ s : String, s ++ "/env" ++ "/-" = s ++ "/env/-" := by
    intro s; rw [String.append_assoc]; rfl
  unfold CreatePatch
  simp only [hidx, hne, if_false, addVolumeMount, addLifecycleHook, hat,
    appendEnvVars_eq pod _ c hat, toString_natCast, hcmd, hmnt, p1, p2]
  have hv : kubePlexBinaryVolume = "kube-plex-binary" := rfl
  have hm : kubePlexBinaryMount = "/shared" := rfl
  simp only [hv, hm, binaryVolume, binaryMount, waitAndCopyHook]
  by_cases hvm : c.VolumeMounts.length = 0
  · cases hl : c.Lifecycle with
    | none => simp [hvm]
    | some existing => cases hps : existing.PostStart <;> simp [hvm, hps]
  · cases hl : c.Lifecycle with
    | none => simp [hvm]
    | some existing => cases hps : existing.PostStart <;> simp [hvm, hps]

theorem CreatePatch_of_none (pod : Pod) (cfg : Config)
    (h : ∀ c ∈ pod.Spec.Containers, c.Name ≠ cfg.PMSContainer) :
    CreatePatch pod cfg = Result.error (CoreError.containerNotFound cfg.PMSContainer) := by
  unfold CreatePatch
  simp [findPMSContainerIdx_none cfg.PMSContainer pod.Spec.Containers 0 h]

theorem exists_first_of_ok (pod : Pod) (cfg : Config) (ops : List PatchOperation)
    (h : CreatePatch pod cfg = Result.ok ops) :
    ∃ i c, IsFirstNamed pod.Spec.Containers cfg.PMSContainer i c := by
  by_cases hex : ∃ c ∈ pod.Spec.Containers, c.Name = cfg.PMSContainer
  · obtain ⟨k, c, hf, _⟩ := findPMSContainerIdx_some cfg.PMSContainer pod.Spec.Containers 0 hex
    exact ⟨k, c, hf⟩
  · have hno : ∀ c ∈ pod.Spec.Containers, c.Name ≠ cfg.PMSContainer := by
      intro c hc hn
      exact hex ⟨c, hc, hn⟩
    rw [CreatePatch_of_none pod cfg hno] at h
    cases h

theorem buildEnvVars_length (cfg : Config) :
    3 ≤ (buildEnvVars cfg).length ∧ (buildEnvVars cfg).length ≤ 6 := by
  unfold buildEnvVars
  by_cases hd : cfg.DataPVC = "" <;> by_cases hc : cfg.ConfigPVC = "" <;>
    by_cases hs : cfg.PMSService = "" <;> simp [hd, hc, hs]

theorem forall₂_map_self {α β : Type} (R : β → α → Prop) (f : α → β) (l : List α)
    (h : ∀ x, R (f x) x) : List.Forall₂ R (l.map f) l := by
  induction l with
  | nil => exact List.Forall₂.nil
  | cons x xs ih => exact List.Forall₂.cons (h x) ih

/-- C6: CreatePatch returns the container-not-found error exactly when no container of
the pod is named `cfg.PMSContainer` (exact string equality), in which case the result
carries no operations; it returns a patch exactly when some container has that name; it
never faults. -/
theorem CreatePatch_fails_iff (pod : Pod) (cfg : Config) :
    (CreatePatch pod cfg = Result.error (CoreError.containerNotFound cfg.PMSContainer) ↔
      ∀ c ∈ pod.Spec.Containers, c.Name ≠ cfg.PMSContainer) ∧
    ((∃ ops, CreatePatch pod cfg = Result.ok ops) ↔
      ∃ c ∈ pod.Spec.Containers, c.Name = cfg.PMSContainer) ∧
    ((CreatePatch pod cfg).value? = none ↔
      CreatePatch pod cfg = Result.error (CoreError.containerNotFound cfg.PMSContainer)) := by
  by_cases hex : ∃ c ∈ pod.Spec.Containers, c.Name = cfg.PMSContainer
  · obtain ⟨k, c, hf, _⟩ := findPMSContainerIdx_some cfg.PMSContainer pod.Spec.Containers 0 hex
    have hok := CreatePatch_of_first pod cfg k c hf
    refine ⟨?_, ?_, ?_⟩
    · rw [hok]
      constructor
      · intro h; cases h
      · intro h
        obtain ⟨d, hd, hdn⟩ := hex
        exact absurd hdn (h d hd)
    · constructor
      · intro _; exact hex
      · intro _; exact ⟨_, hok⟩
    · rw [hok]
      constructor
      · intro h; cases h
      · intro h; cases h
  · have hno : ∀ c ∈ pod.Spec.Containers, c.Name ≠ cfg.PMSContainer := by
      intro c hc hn
      exact hex ⟨c, hc, hn⟩
    have herr := CreatePatch_of_none pod cfg hno
    refine ⟨?_, ?_, ?_⟩
    · constructor
      · intro _; exact hno
      · intro _; exact herr
    · constructor
      · rintro ⟨ops, h⟩
        rw [herr] at h
        cases h
      · intro h; exact absurd h hex
    · rw [herr]
      constructor
      · intro _; rfl
      · intro _; rfl

/-- C7: a patch returned by CreatePatch is, with `i` the index of the first container
named `cfg.PMSContainer`, one operation on `/spec/volumes`, one on `/spec/initContainers`,
one on `/spec/containers/i/volumeMounts`, one on `/spec/containers/i/lifecycle`, then one
operation per variable of `buildEnvVars cfg`, in the same order, on `/spec/containers/i/env`,
where each array path may be replaced by its append pointer (the path followed by a slash
and a dash); its length is `4 + len(buildEnvVars cfg)`, between 7 and 10. -/
theorem CreatePatch_shape (pod : Pod) (cfg : Config) (ops : List PatchOperation)
    (h : CreatePatch pod cfg = Result.ok ops) :
    ∃ i c, IsFirstNamed pod.Spec.Containers cfg.PMSContainer i c ∧
      i < pod.Spec.Containers.length ∧
      ∃ volOp initOp mountOp hookOp envOps,
        ops = [volOp, initOp, mountOp, hookOp] ++ envOps ∧
        (volOp.Path = "/spec/volumes" ∨ volOp.Path = "/spec/volumes/-") ∧
        (initOp.Path = "/spec/initContainers" ∨ initOp.Path = "/spec/initContainers/-") ∧
        (mountOp.Path = "/spec/containers/" ++ toString i ++ "/volumeMounts" ∨
          mountOp.Path = "/spec/containers/" ++ toString i ++ "/volumeMounts/-") ∧
        hookOp.Path = "/spec/containers/" ++ toString i ++ "/lifecycle" ∧
        List.Forall₂
          (fun op env =>
            (op.Path = "/spec/containers/" ++ toString i ++ "/env" ∧
              op.Value = PatchValue.envVars [env]) ∨
            (op.Path = "/spec/containers/" ++ toString i ++ "/env/-" ∧
              op.Value = PatchValue.envVar env))
          envOps (buildEnvVars cfg) ∧
        ops.length = 4 + (buildEnvVars cfg).length ∧ 7 ≤ ops.length ∧ ops.length ≤ 10 := by
  obtain ⟨i, c, hf⟩ := exists_first_of_ok pod cfg ops h
  have hlt : i < pod.Spec.Containers.length := (List.getElem?_eq_some.1 hf.1).1
  rw [CreatePatch_of_first pod cfg i c hf] at h
  have hops := (Result.ok.inj h).symm
  have hlen := buildEnvVars_length cfg
  refine ⟨i, c, hf, hlt, _, _, _, _, _, hops, ?_, ?_, ?_, ?_, ?_, ?_, ?_, ?_⟩
  · unfold addVolume; split_ifs <;> simp
  · unfold addInitContainer; split_ifs <;> simp
  · split_ifs <;> simp
  · cases c.Lifecycle <;> rfl
  · apply forall₂_map_self
    intro env
    split_ifs <;> simp
  · rw [hops]; simp; omega
  · rw [hops]; simp; omega
  · rw [hops]; simp; omega

theorem CreatePatch_shape_witness :
    ExtractConfig populatedPod "media" = Result.ok scenarioAConfig ∧
    ∃ i c, IsFirstNamed populatedPod.Spec.Containers scenarioAConfig.PMSContainer i c ∧
      i < populatedPod.Spec.Containers.length ∧
      ∃ volOp initOp mountOp hookOp envOps,
        ((CreatePatch populatedPod scenarioAConfig).value?).getD [] =
          [volOp, initOp, mountOp, hookOp] ++ envOps ∧
        (volOp.Path = "/spec/volumes" ∨ volOp.Path = "/spec/volumes/-") ∧
        (initOp.Path = "/spec/initContainers" ∨ initOp.Path = "/spec/initContainers/-") ∧
        (mountOp.Path = "/spec/containers/" ++ toString i ++ "/volumeMounts" ∨
          mountOp.Path = "/spec/containers/" ++ toString i ++ "/volumeMounts/-") ∧
        hookOp.Path = "/spec/containers/" ++ toString i ++ "/lifecycle" ∧
        List.Forall₂
          (fun op env =>
            (op.Path = "/spec/containers/" ++ toString i ++ "/env" ∧
              op.Value = PatchValue.envVars [env]) ∨
            (op.Path = "/spec/containers/" ++ toString i ++ "/env/-" ∧
              op.Value = PatchValue.envVar env))
          envOps (buildEnvVars scenarioAConfig) ∧
        (((CreatePatch populatedPod scenarioAConfig).value?).getD []).length =
          4 + (buildEnvVars scenarioAConfig).length ∧
        7 ≤ (((CreatePatch populatedPod scenarioAConfig).value?).getD []).length ∧
        (((CreatePatch populatedPod scenarioAConfig).value?).getD []).length ≤ 10 :=
  ⟨by decide,
    CreatePatch_shape populatedPod scenarioAConfig
      (((CreatePatch populatedPod scenarioAConfig).value?).getD []) (by decide)⟩

theorem ops_of_ok (pod : Pod) (cfg : Config) (ops : List PatchOperation)
    (h : CreatePatch pod cfg = Result.ok ops) :
    ∃ i c, IsFirstNamed pod.Spec.Containers cfg.PMSContainer i c ∧
      ops =
        [ addVolume pod binaryVolume,
          addInitContainer pod
            { Name := "kube-plex-init", Image := cfg.KubePlexImage,
              Command := ["cp", "/kube-plex", "/shared/kube-plex"], Env := [],
              VolumeMounts := [binaryMount], Lifecycle := none },
          (if c.VolumeMounts.length = 0 then
             { Op := "add", Path := "/spec/containers/" ++ toString i ++ "/volumeMounts",
               Value := PatchValue.volumeMounts [binaryMount] }
           else
             { Op := "add", Path := "/spec/containers/" ++ toString i ++ "/volumeMounts/-",
               Value := PatchValue.volumeMount binaryMount }),
          (match c.Lifecycle with
           | some existing =>
             { Op := "replace", Path := "/spec/containers/" ++ toString i ++ "/lifecycle",
               Value := PatchValue.lifecycle
                 { PostStart := some waitAndCopyHook, PreStop := existing.PreStop } }
           | none =>
             { Op := "add", Path := "/spec/containers/" ++ toString i ++ "/lifecycle",
               Value := PatchValue.lifecycle
                 { PostStart := some waitAndCopyHook, PreStop := none } }) ] ++
          (buildEnvVars cfg).map (fun env =>
            if c.Env.length = 0 then
              { Op := "add", Path := "/spec/containers/" ++ toString i ++ "/env",
                Value := PatchValue.envVars [env] }
            else
              { Op := "add", Path := "/spec/containers/" ++ toString i ++ "/env/-",
                Value := PatchValue.envVar env }) := by
  obtain ⟨i, c, hf⟩ := exists_first_of_ok pod cfg ops h
  rw [CreatePatch_of_first pod cfg i c hf] at h
  exact ⟨i, c, hf, (Result.ok.inj h).symm⟩

/-- C8: in a patch returned by CreatePatch, with `c` the target container at index `i`,
the first operation adds the emptyDir volume `kube-plex-binary`: at `/spec/volumes` with a
one-element array when the pod has no volumes, at the append pointer with the single
volume otherwise; the second adds the init container in the same way against
`pod.Spec.InitContainers`; the third adds the mount of `kube-plex-binary` at `/shared` in
the same way against the volume mounts of `c`, under `/spec/containers/i/volumeMounts`. -/
theorem CreatePatch_array_append (pod : Pod) (cfg : Config) (ops : List PatchOperation)
    (h : CreatePatch pod cfg = Result.ok ops) :
    ∃ i c, IsFirstNamed pod.Spec.Containers cfg.PMSContainer i c ∧
      ops[0]? = some
        (if pod.Spec.Volumes = [] then
          { Op := "add", Path := "/spec/volumes", Value := PatchValue.volumes [binaryVolume] }
        else
          { Op := "add", Path := "/spec/volumes/-", Value := PatchValue.volume binaryVolume }) ∧
      (∃ ctr : Container, ctr.Name = "kube-plex-init" ∧
        ops[1]? = some
          (if pod.Spec.InitContainers = [] then
            { Op := "add", Path := "/spec/initContainers",
              Value := PatchValue.containers [ctr] }
          else
            { Op := "add", Path := "/spec/initContainers/-",
              Value := PatchValue.container ctr })) ∧
      ops[2]? = some
        (if c.VolumeMounts = [] then
          { Op := "add", Path := "/spec/containers/" ++ toString i ++ "/volumeMounts",
            Value := PatchValue.volumeMounts [binaryMount] }
        else
          { Op := "add", Path := "/spec/containers/" ++ toString i ++ "/volumeMounts/-",
            Value := PatchValue.volumeMount binaryMount }) ∧
      binaryVolume.Name = "kube-plex-binary" ∧ binaryVolume.EmptyDir ≠ none ∧
      binaryVolume.PersistentVolumeClaim = none ∧
      binaryMount.Name = "kube-plex-binary" ∧ binaryMount.MountPath = "/shared" := by
  obtain ⟨i, c, hf, hops⟩ := ops_of_ok pod cfg ops h
  refine ⟨i, c, hf, ?_,
    ⟨{ Name := "kube-plex-init", Image := cfg.KubePlexImage,
       Command := ["cp", "/kube-plex", "/shared/kube-plex"], Env := [],
       VolumeMounts := [binaryMount], Lifecycle := none }, rfl, ?_⟩,
    ?_, rfl, by decide, rfl, rfl, rfl⟩
  · rw [hops]
    cases hv : pod.Spec.Volumes <;> simp [addVolume, hv]
  · rw [hops]
    cases hv : pod.Spec.InitContainers <;> simp [addInitContainer, hv]
  · rw [hops]
    cases hv : c.VolumeMounts <;> simp

theorem CreatePatch_array_append_witness :
    ∃ i c, IsFirstNamed scenarioA.Spec.Containers scenarioAConfig.PMSContainer i c ∧
      (((CreatePatch scenarioA scenarioAConfig).value?).getD [])[0]? = some
        (if scenarioA.Spec.Volumes = [] then
          { Op := "add", Path := "/spec/volumes", Value := PatchValue.volumes [binaryVolume] }
        else
          { Op := "add", Path := "/spec/volumes/-", Value := PatchValue.volume binaryVolume }) ∧
      (∃ ctr : Container, ctr.Name = "kube-plex-init" ∧
        (((CreatePatch scenarioA scenarioAConfig).value?).getD [])[1]? = some
          (if scenarioA.Spec.InitContainers = [] then
            { Op := "add", Path := "/spec/initContainers",
              Value := PatchValue.containers [ctr] }
          else
            { Op := "add", Path := "/spec/initContainers/-",
              Value := PatchValue.container ctr })) ∧
      (((CreatePatch scenarioA scenarioAConfig).value?).getD [])[2]? = some
        (if c.VolumeMounts = [] then
          { Op := "add", Path := "/spec/containers/" ++ toString i ++ "/volumeMounts",
            Value := PatchValue.volumeMounts [binaryMount] }
        else
          { Op := "add", Path := "/spec/containers/" ++ toString i ++ "/volumeMounts/-",
            Value := PatchValue.volumeMount binaryMount }) ∧
      binaryVolume.Name = "kube-plex-binary" ∧ binaryVolume.EmptyDir ≠ none ∧
      binaryVolume.PersistentVolumeClaim = none ∧
      binaryMount.Name = "kube-plex-binary" ∧ binaryMount.MountPath = "/shared" :=
  CreatePatch_array_append scenarioA scenarioAConfig
    (((CreatePatch scenarioA scenarioAConfig).value?).getD []) (by decide)

/-- C9 (code defect, evaluated): for scenario A, whose target container `plex` has an
empty env list, all three environment operations of the patch are whole-array adds at
`/spec/containers/0/env` with a one-element array; the second and third are not adds at
the append pointer. -/
theorem env_append_not_tracked :
    ExtractConfig scenarioA "media" = Result.ok scenarioAConfig ∧
    (scenarioA.Spec.Containers.map Container.Env) = [[]] ∧
    (CreatePatch scenarioA scenarioAConfig).value?.map (List.drop 4) = some
      [ { Op := "add", Path := "/spec/containers/0/env",
          Value := PatchValue.envVars
            [{ Name := "PMS_IMAGE", Value := "plexinc/pms:1", ValueFrom := none }] },
        { Op := "add", Path := "/spec/containers/0/env",
          Value := PatchValue.envVars
            [{ Name := "TRANSCODE_PVC", Value := "tc1", ValueFrom := none }] },
        { Op := "add", Path := "/spec/containers/0/env",
          Value := PatchValue.envVars
            [{ Name := "KUBE_NAMESPACE", Value := "",
               ValueFrom := some
                 { FieldRef := some { APIVersion := "", FieldPath := "metadata.namespace" } } }] } ] := by
  decide

/-- C10: in a patch returned by CreatePatch, with `c` the target container at index `i`,
the fourth operation has path `/spec/containers/i/lifecycle` and a post-start hook that is
the fixed wait-and-copy exec command; when `c` has no lifecycle record the op is `add` and
there is no pre-stop hook; when `c` has a lifecycle record the op is `replace` and the
pre-stop hook is the one `c` had, whatever post-start hook `c` had. -/
theorem CreatePatch_lifecycle (pod : Pod) (cfg : Config) (ops : List PatchOperation)
    (h : CreatePatch pod cfg = Result.ok ops) :
    ∃ i c, IsFirstNamed pod.Spec.Containers cfg.PMSContainer i c ∧
      ∃ op, ops[3]? = some op ∧
        op.Path = "/spec/containers/" ++ toString i ++ "/lifecycle" ∧
        (c.Lifecycle = none →
          op.Op = "add" ∧
          op.Value = PatchValue.lifecycle
            { PostStart := some waitAndCopyHook, PreStop := none }) ∧
        (∀ existing, c.Lifecycle = some existing →
          op.Op = "replace" ∧
          op.Value = PatchValue.lifecycle
            { PostStart := some waitAndCopyHook, PreStop := existing.PreStop }) ∧
        waitAndCopyHook.HTTPGet = none ∧
        waitAndCopyHook.Exec = some { Command := ["/bin/sh", "-c",
          "until [ -f \"/usr/lib/plexmediaserver/Plex Transcoder\" ]; do sleep 1; done; cp \"/shared/kube-plex\" \"/usr/lib/plexmediaserver/Plex Transcoder\""] } := by
  obtain ⟨i, c, hf, hops⟩ := ops_of_ok pod cfg ops h
  refine ⟨i, c, hf,
    (match c.Lifecycle with
     | some existing =>
       { Op := "replace", Path := "/spec/containers/" ++ toString i ++ "/lifecycle",
         Value := PatchValue.lifecycle
           { PostStart := some waitAndCopyHook, PreStop := existing.PreStop } }
     | none =>
       { Op := "add", Path := "/spec/containers/" ++ toString i ++ "/lifecycle",
         Value := PatchValue.lifecycle
           { PostStart := some waitAndCopyHook, PreStop := none } }),
    by rw [hops]; simp, ?_, ?_, ?_, rfl, rfl⟩
  · cases c.Lifecycle <;> rfl
  · intro hl; simp [hl]
  · intro existing hl; simp [hl]

theorem CreatePatch_lifecycle_witness :
    ∃ i c, IsFirstNamed populatedPod.Spec.Containers scenarioAConfig.PMSContainer i c ∧
      ∃ op, (((CreatePatch populatedPod scenarioAConfig).value?).getD [])[3]? = some op ∧
        op.Path = "/spec/containers/" ++ toString i ++ "/lifecycle" ∧
        (c.Lifecycle = none →
          op.Op = "add" ∧
          op.Value = PatchValue.lifecycle
            { PostStart := some waitAndCopyHook, PreStop := none }) ∧
        (∀ existing, c.Lifecycle = some existing →
          op.Op = "replace" ∧
          op.Value = PatchValue.lifecycle
            { PostStart := some waitAndCopyHook, PreStop := existing.PreStop }) ∧
        waitAndCopyHook.HTTPGet = none ∧
        waitAndCopyHook.Exec = some { Command := ["/bin/sh", "-c",
          "until [ -f \"/usr/lib/plexmediaserver/Plex Transcoder\" ]; do sleep 1; done; cp \"/shared/kube-plex\" \"/usr/lib/plexmediaserver/Plex Transcoder\""] } :=
  CreatePatch_lifecycle populatedPod scenarioAConfig
    (((CreatePatch populatedPod scenarioAConfig).value?).getD []) (by decide)

theorem buildEnvVars_eq (cfg : Config) :
    buildEnvVars cfg =
      [ { Name := "PMS_IMAGE", Value := cfg.PMSImage, ValueFrom := none },
        { Name := "TRANSCODE_PVC", Value := cfg.TranscodePVC, ValueFrom := none },
        { Name := "KUBE_NAMESPACE", Value := "",
          ValueFrom := some
            { FieldRef := some { APIVersion := "", FieldPath := "metadata.namespace" } } } ] ++
      (if cfg.DataPVC = "" then []
        else [{ Name := "DATA_PVC", Value := cfg.DataPVC, ValueFrom := none }]) ++
      (if cfg.ConfigPVC = "" then []
        else [{ Name := "CONFIG_PVC", Value := cfg.ConfigPVC, ValueFrom := none }]) ++
      (if cfg.PMSService = "" then []
        else [{ Name := "PMS_INTERNAL_ADDRESS",
                Value :=
                  if stringsContains cfg.PMSService "://" = true then cfg.PMSService
                  else "http://" ++ cfg.PMSService ++ "." ++ cfg.Namespace ++ ".svc:32400",
                ValueFrom := none }]) := by
  unfold buildEnvVars
  by_cases hd : cfg.DataPVC = "" <;> by_cases hc : cfg.ConfigPVC = "" <;>
    by_cases hs : cfg.PMSService = "" <;>
    by_cases hx : stringsContains cfg.PMSService "://" = true <;> simp [hd, hc, hs, hx]

/-- C11: `buildEnvVars` returns, in this order, PMS_IMAGE with the literal value
`cfg.PMSImage`, TRANSCODE_PVC with the literal value `cfg.TranscodePVC`, KUBE_NAMESPACE
with no literal value and a field reference to `metadata.namespace`, then DATA_PVC with
value `cfg.DataPVC` exactly when that is non-empty, then CONFIG_PVC with value
`cfg.ConfigPVC` exactly when that is non-empty, then one variable PMS_INTERNAL_ADDRESS
exactly when `cfg.PMSService` is non-empty; nothing else, and no name twice. -/
theorem buildEnvVars_list (cfg : Config) :
    (∃ address : String,
      buildEnvVars cfg =
        [ { Name := "PMS_IMAGE", Value := cfg.PMSImage, ValueFrom := none },
          { Name := "TRANSCODE_PVC", Value := cfg.TranscodePVC, ValueFrom := none },
          { Name := "KUBE_NAMESPACE", Value := "",
            ValueFrom := some
              { FieldRef := some { APIVersion := "", FieldPath := "metadata.namespace" } } } ] ++
        (if cfg.DataPVC = "" then []
          else [{ Name := "DATA_PVC", Value := cfg.DataPVC, ValueFrom := none }]) ++
        (if cfg.ConfigPVC = "" then []
          else [{ Name := "CONFIG_PVC", Value := cfg.ConfigPVC, ValueFrom := none }]) ++
        (if cfg.PMSService = "" then []
          else [{ Name := "PMS_INTERNAL_ADDRESS", Value := address, ValueFrom := none }])) ∧
    ((buildEnvVars cfg).map EnvVar.Name).Nodup := by
  refine ⟨⟨_, buildEnvVars_eq cfg⟩, ?_⟩
  rw [buildEnvVars_eq]
  by_cases hd : cfg.DataPVC = "" <;> by_cases hc : cfg.ConfigPVC = "" <;>
    by_cases hs : cfg.PMSService = "" <;> simp [hd, hc, hs]

theorem startsWithChars_iff (p s : List Char) :
    startsWithChars p s = true ↔ ∃ b, s = p ++ b := by
  induction p generalizing s with
  | nil => simp [startsWithChars]
  | cons x xs ih =>
    cases s with
    | nil => simp [startsWithChars]
    | cons c cs =>
      simp only [startsWithChars, Bool.and_eq_true, beq_iff_eq, ih, List.cons_append,
        List.cons.injEq]
      constructor
      · rintro ⟨rfl, b, rfl⟩
        exact ⟨b, rfl, rfl⟩
      · rintro ⟨b, rfl, rfl⟩
        exact ⟨rfl, b, rfl⟩

theorem containsChars_iff (p s : List Char) :
    containsChars p s = true ↔ ∃ a b, s = a ++ p ++ b := by
  induction s with
  | nil =>
    simp only [containsChars, startsWithChars_iff]
    constructor
    · rintro ⟨b, hb⟩
      exact ⟨[], b, by simpa using hb⟩
    · rintro ⟨a, b, hab⟩
      have h1 : a = [] := by
        cases a with
        | nil => rfl
        | cons _ _ => simp at hab
      subst h1
      exact ⟨b, by simpa using hab⟩
  | cons c cs ih =>
    simp only [containsChars, Bool.or_eq_true, startsWithChars_iff, ih]
    constructor
    · rintro (⟨b, hb⟩ | ⟨a, b, hab⟩)
      · exact ⟨[], b, by simpa using hb⟩
      · exact ⟨c :: a, b, by simp [hab]⟩
    · rintro ⟨a, b, hab⟩
      cases a with
      | nil => exact Or.inl ⟨b, by simpa using hab⟩
      | cons x xs =>
        simp only [List.cons_append, List.cons.injEq] at hab
        exact Or.inr ⟨xs, b, by simpa using hab.2⟩

theorem stringsContains_iff (s substr : String) :
    stringsContains s substr = true ↔ ∃ a b : String, s = a ++ substr ++ b := by
  unfold stringsContains
  rw [containsChars_iff]
  constructor
  · rintro ⟨a, b, hab⟩
    refine ⟨⟨a⟩, ⟨b⟩, ?_⟩
    apply String.ext
    simpa using hab
  · rintro ⟨a, b, rfl⟩
    exact ⟨a.data, b.data, by simp⟩

/-- C12: for a configuration with a non-empty PMSService, `buildEnvVars` emits
PMS_INTERNAL_ADDRESS once, as its last variable, and its value is PMSService unchanged
when PMSService contains `://`, and `http://` ++ PMSService ++ `.` ++ Namespace ++
`.svc:32400` otherwise; when the configuration comes from ExtractConfig, Namespace is the
namespace string passed to it and PMSService is the `pms-service` annotation value. -/
theorem pms_internal_address (cfg : Config) (hs : cfg.PMSService ≠ "") :
    ∃ v : String,
      (buildEnvVars cfg).getLast? =
        some { Name := "PMS_INTERNAL_ADDRESS", Value := v, ValueFrom := none } ∧
      (∀ e ∈ buildEnvVars cfg, e.Name = "PMS_INTERNAL_ADDRESS" → e.Value = v) ∧
      ((∃ a b : String, cfg.PMSService = a ++ "://" ++ b) → v = cfg.PMSService) ∧
      ((¬ ∃ a b : String, cfg.PMSService = a ++ "://" ++ b) →
        v = "http://" ++ cfg.PMSService ++ "." ++ cfg.Namespace ++ ".svc:32400") ∧
      (∀ pod ns, ExtractConfig pod ns = Result.ok cfg →
        cfg.Namespace = ns ∧
        cfg.PMSService = mapIndex (pod.Annotations.getD []) AnnotationPMSService) := by
  refine ⟨if stringsContains cfg.PMSService "://" = true then cfg.PMSService
      else "http://" ++ cfg.PMSService ++ "." ++ cfg.Namespace ++ ".svc:32400", ?_, ?_, ?_, ?_, ?_⟩
  · rw [buildEnvVars_eq]
    by_cases hd : cfg.DataPVC = "" <;> by_cases hc : cfg.ConfigPVC = "" <;>
      simp [hd, hc, hs]
  · intro e he hn
    rw [buildEnvVars_eq] at he
    by_cases hd : cfg.DataPVC = "" <;> by_cases hc : cfg.ConfigPVC = "" <;>
      simp [hd, hc, hs] at he <;>
      rcases he with rfl | rfl | rfl | rfl | rfl | rfl <;> first | rfl | (simp at hn)
  · intro h
    rw [if_pos ((stringsContains_iff _ _).2 h)]
  · intro h
    rw [if_neg (fun hc => h ((stringsContains_iff _ _).1 hc))]
  · intro pod ns h
    obtain ⟨_, rfl⟩ := (ExtractConfig_ok_iff pod ns cfg).1 h
    exact ⟨rfl, rfl⟩

theorem pms_internal_address_witness :
    ExtractConfig scenarioD "media" = Result.ok scenarioDConfig ∧
    (buildEnvVars scenarioDConfig).getLast? =
      some { Name := "PMS_INTERNAL_ADDRESS", Value := "http://plexsvc.media.svc:32400",
             ValueFrom := none } ∧
    ((ExtractConfig scenarioE "media").value?.map buildEnvVars).map List.getLast? =
      some (some { Name := "PMS_INTERNAL_ADDRESS", Value := "http://external:32400",
                   ValueFrom := none }) ∧
    ∃ v : String,
      (buildEnvVars scenarioDConfig).getLast? =
        some { Name := "PMS_INTERNAL_ADDRESS", Value := v, ValueFrom := none } ∧
      (∀ e ∈ buildEnvVars scenarioDConfig, e.Name = "PMS_INTERNAL_ADDRESS" → e.Value = v) ∧
      ((∃ a b : String, scenarioDConfig.PMSService = a ++ "://" ++ b) →
        v = scenarioDConfig.PMSService) ∧
      ((¬ ∃ a b : String, scenarioDConfig.PMSService = a ++ "://" ++ b) →
        v = "http://" ++ scenarioDConfig.PMSService ++ "." ++ scenarioDConfig.Namespace ++
          ".svc:32400") ∧
      (∀ pod ns, ExtractConfig pod ns = Result.ok scenarioDConfig →
        scenarioDConfig.Namespace = ns ∧
        scenarioDConfig.PMSService = mapIndex (pod.Annotations.getD []) AnnotationPMSService) :=
  ⟨by decide, by decide, by decide, pms_internal_address scenarioDConfig (by decide)⟩

/-- C13 (as stated, refuted): a pod without a `pms-container` annotation whose only
container has an empty name resolves with an empty PMSContainer although it has a
container. -/
theorem pms_container_counterexample :
    ExtractConfig unnamedContainerPod "media" =
      Result.ok
        { PMSService := "", DataPVC := "", ConfigPVC := "", TranscodePVC := "tc1",
          PMSContainer := "", PMSImage := "img",
          KubePlexImage := DefaultKubePlexImage, Namespace := "media" } ∧
    mapIndex (unnamedContainerPod.Annotations.getD []) AnnotationPMSContainer = "" ∧
    unnamedContainerPod.Spec.Containers.length = 1 := by
  decide

/-- C13 (amended): when ExtractConfig succeeds, PMSContainer is the `pms-container`
annotation value when that is present and non-empty, whatever the containers are;
otherwise it is the name of the first container when the pod has one and empty when it
has none, so that it is empty only when the pod has no containers or the name of its
first container is empty. -/
theorem ExtractConfig_pms_container (pod : Pod) (ns : String) (cfg : Config)
    (h : ExtractConfig pod ns = Result.ok cfg) :
    (∀ m v, pod.Annotations = some m → m.lookup AnnotationPMSContainer = some v → v ≠ "" →
      cfg.PMSContainer = v) ∧
    (mapIndex (pod.Annotations.getD []) AnnotationPMSContainer = "" →
      (∀ c rest, pod.Spec.Containers = c :: rest → cfg.PMSContainer = c.Name) ∧
      (pod.Spec.Containers = [] → cfg.PMSContainer = "") ∧
      (cfg.PMSContainer = "" →
        pod.Spec.Containers = [] ∨ ∃ c rest, pod.Spec.Containers = c :: rest ∧ c.Name = "")) := by
  obtain ⟨_, rfl⟩ := (ExtractConfig_ok_iff pod ns cfg).1 h
  simp only [resolvedContainer]
  refine ⟨?_, ?_⟩
  · intro m v hm hl hv
    simp [hm, mapIndex_of_lookup m _ v hl, hv]
  · intro he
    cases hc : pod.Spec.Containers with
    | nil => simp [he]
    | cons c cs => simp [he]

theorem ExtractConfig_pms_container_witness :
    ExtractConfig twinContainersPod "media" = Result.ok twinContainersConfig ∧
    twinContainersConfig.PMSContainer = "plex" :=
  ⟨by decide,
    (ExtractConfig_pms_container twinContainersPod "media" twinContainersConfig (by decide)).1
      _ "plex" rfl (by decide) (by decide)⟩

theorem containerImage_of_none (name : String) (cs : List Container) (img : String)
    (h : ∀ c ∈ cs, c.Name ≠ name) : containerImage name cs img = img := by
  induction cs with
  | nil => rfl
  | cons c cs ih =>
    unfold containerImage
    rw [if_neg (h c (List.mem_cons_self _ _))]
    exact ih (fun d hd => h d (List.mem_cons_of_mem _ hd))

theorem containerImage_of_first (name : String) (cs : List Container) (img : String)
    (i : Nat) (c : Container) (h : IsFirstNamed cs name i c) :
    containerImage name cs img = c.Image := by
  induction cs generalizing i with
  | nil =>
    have := h.1
    simp at this
  | cons d ds ih =>
    obtain ⟨hi, hn, hfirst⟩ := h
    unfold containerImage
    cases i with
    | zero =>
      simp only [List.getElem?_cons_zero, Option.some.injEq] at hi
      subst hi
      rw [if_pos hn]
    | succ j =>
      have hd : d.Name ≠ name := by
        have := hfirst 0 (by omega)
        simpa using this
      rw [if_neg hd]
      apply ih j
      refine ⟨by simpa using hi, hn, ?_⟩
      intro k hk
      have := hfirst (k + 1) (by omega)
      simpa using this

/-- C14: when ExtractConfig succeeds, PMSImage is the `pms-image` annotation value when
that is non-empty; otherwise it is the image of the first container, in list order, whose
name equals the resolved PMSContainer, and the empty string when no container has that
name. -/
theorem ExtractConfig_pms_image (pod : Pod) (ns : String) (cfg : Config)
    (h : ExtractConfig pod ns = Result.ok cfg) :
    (∀ m v, pod.Annotations = some m → m.lookup AnnotationPMSImage = some v → v ≠ "" →
      cfg.PMSImage = v) ∧
    (mapIndex (pod.Annotations.getD []) AnnotationPMSImage = "" →
      (∀ i c, IsFirstNamed pod.Spec.Containers cfg.PMSContainer i c →
        cfg.PMSImage = c.Image) ∧
      ((∀ c ∈ pod.Spec.Containers, c.Name ≠ cfg.PMSContainer) → cfg.PMSImage = "")) := by
  obtain ⟨_, rfl⟩ := (ExtractConfig_ok_iff pod ns cfg).1 h
  refine ⟨?_, ?_⟩
  · intro m v hm hl hv
    simp [hm, mapIndex_of_lookup m _ v hl, hv]
  · intro he
    simp only [he, if_true]
    refine ⟨?_, ?_⟩
    · intro i c hf
      exact containerImage_of_first _ _ _ i c hf
    · intro hno
      exact containerImage_of_none _ _ _ hno

theorem ExtractConfig_pms_image_witness :
    ExtractConfig twinContainersPod "media" = Result.ok twinContainersConfig ∧
    twinContainersPod.Spec.Containers.map Container.Image = ["envoy", "first:1", "second:2"] ∧
    twinContainersConfig.PMSImage = "first:1" :=
  ⟨by decide, by decide,
    ((ExtractConfig_pms_image twinContainersPod "media" twinContainersConfig (by decide)).2
      (by decide)).1 1 (plainContainer "plex" "first:1") (by
        refine ⟨by decide, by decide, ?_⟩
        intro j hj
        interval_cases j
        decide)⟩

/-- C15: when ExtractConfig and then CreatePatch succeed, the second operation of the
patch injects one container, as a one-element array at `/spec/initContainers` or as a
single value at its append pointer; that container is named `kube-plex-init`, has the
command `cp /kube-plex /shared/kube-plex`, exactly one volume mount (`kube-plex-binary` at
`/shared`), and as image the `kube-plex-image` annotation value when that is non-empty and
`ghcr.io/adamjacobmuller/kube-plex:latest` otherwise. -/
theorem init_container_injected (pod : Pod) (ns : String) (cfg : Config)
    (ops : List PatchOperation) (h : ExtractConfig pod ns = Result.ok cfg)
    (hp : CreatePatch pod cfg = Result.ok ops) :
    ∃ ctr : Container,
      (ops[1]? = some { Op := "add", Path := "/spec/initContainers",
                        Value := PatchValue.containers [ctr] } ∨
        ops[1]? = some { Op := "add", Path := "/spec/initContainers/-",
                         Value := PatchValue.container ctr }) ∧
      ctr.Name = "kube-plex-init" ∧
      ctr.Command = ["cp", "/kube-plex", "/shared/kube-plex"] ∧
      ctr.VolumeMounts =
        [{ Name := "kube-plex-binary", MountPath := "/shared", ReadOnly := false,
           SubPath := "" }] ∧
      (∀ m v, pod.Annotations = some m → m.lookup AnnotationKubePlexImage = some v →
        v ≠ "" → ctr.Image = v) ∧
      (mapIndex (pod.Annotations.getD []) AnnotationKubePlexImage = "" →
        ctr.Image = "ghcr.io/adamjacobmuller/kube-plex:latest") := by
  obtain ⟨i, c, hf, hops⟩ := ops_of_ok pod cfg ops hp
  obtain ⟨_, hcfg⟩ := (ExtractConfig_ok_iff pod ns cfg).1 h
  refine ⟨{ Name := "kube-plex-init", Image := cfg.KubePlexImage,
            Command := ["cp", "/kube-plex", "/shared/kube-plex"], Env := [],
            VolumeMounts := [binaryMount], Lifecycle := none }, ?_, rfl, rfl, rfl, ?_, ?_⟩
  · rw [hops]
    by_cases hv : pod.Spec.InitContainers.length = 0 <;> simp [addInitContainer, hv]
  · intro m v hm hl hv
    rw [hcfg]
    simp [hm, mapIndex_of_lookup m _ v hl, hv]
  · intro he
    rw [hcfg]
    simp [he, DefaultKubePlexImage]

theorem init_container_injected_witness :
    ∃ ctr : Container,
      ((((CreatePatch twinContainersPod twinContainersConfig).value?).getD [])[1]? =
          some { Op := "add", Path := "/spec/initContainers",
                 Value := PatchValue.containers [ctr] } ∨
        (((CreatePatch twinContainersPod twinContainersConfig).value?).getD [])[1]? =
          some { Op := "add", Path := "/spec/initContainers/-",
                 Value := PatchValue.container ctr }) ∧
      ctr.Name = "kube-plex-init" ∧
      ctr.Command = ["cp", "/kube-plex", "/shared/kube-plex"] ∧
      ctr.VolumeMounts =
        [{ Name := "kube-plex-binary", MountPath := "/shared", ReadOnly := false,
           SubPath := "" }] ∧
      (∀ m v, twinContainersPod.Annotations = some m →
        m.lookup AnnotationKubePlexImage = some v → v ≠ "" → ctr.Image = v) ∧
      (mapIndex (twinContainersPod.Annotations.getD []) AnnotationKubePlexImage = "" →
        ctr.Image = "ghcr.io/adamjacobmuller/kube-plex:latest") :=
  init_container_injected twinContainersPod "media" twinContainersConfig
    (((CreatePatch twinContainersPod twinContainersConfig).value?).getD [])
    (by decide) (by decide)

theorem foldl_applyEnvOp_append (p : String) (l env0 : List EnvVar) :
    (l.map (fun env : EnvVar =>
        ({ Op := "add", Path := p ++ "/-", Value := PatchValue.envVar env } : PatchOperation))).foldl
      (applyEnvOp p) env0 = env0 ++ l := by
  have hne : ¬ (p ++ "/-" = p) := by
    intro h
    have hl := congrArg String.length h
    rw [String.length_append] at hl
    have h2 : ("/-" : String).length = 2 := by decide
    omega
  induction l generalizing env0 with
  | nil => simp
  | cons e es ih =>
    rw [List.map_cons, List.foldl_cons, ih]
    simp [applyEnvOp, hne]

/-- When the target container already has env variables, the environment operations of
the patch, applied in order, append every variable of `buildEnvVars cfg`. -/
theorem applyEnvOps_of_nonempty (pod : Pod) (cfg : Config) (ops : List PatchOperation)
    (i : Nat) (c : Container) (h : CreatePatch pod cfg = Result.ok ops)
    (hf : IsFirstNamed pod.Spec.Containers cfg.PMSContainer i c) (hne : c.Env ≠ []) :
    applyEnvOps ("/spec/containers/" ++ toString i ++ "/env") c.Env (ops.drop 4) =
      c.Env ++ buildEnvVars cfg := by
  rw [CreatePatch_of_first pod cfg i c hf] at h
  have hops := (Result.ok.inj h).symm
  have hlen : ¬ c.Env.length = 0 := by
    intro h0
    exact hne (List.length_eq_zero.1 h0)
  have p2 : "/spec/containers/" ++ toString i ++ "/env/-" =
      ("/spec/containers/" ++ toString i ++ "/env") ++ "/-" := by
    rw [String.append_assoc ("/spec/containers/" ++ toString i)]
    rfl
  rw [hops]
  simp only [List.drop_succ_cons, List.drop_zero, List.cons_append, List.nil_append, hlen,
    if_false, p2, applyEnvOps]
  exact foldl_applyEnvOp_append _ _ _

/-- C16 (code defect, evaluated): for scenario A, whose target container `plex` has an
empty env list, applying the three environment operations of the patch in order to that
list leaves only KUBE_NAMESPACE; PMS_IMAGE and TRANSCODE_PVC, which `buildEnvVars` lists,
are overwritten. -/
theorem env_ops_lose_variables :
    ExtractConfig scenarioA "media" = Result.ok scenarioAConfig ∧
    (buildEnvVars scenarioAConfig).map EnvVar.Name =
      ["PMS_IMAGE", "TRANSCODE_PVC", "KUBE_NAMESPACE"] ∧
    (applyEnvOps "/spec/containers/0/env" []
      (((CreatePatch scenarioA scenarioAConfig).value?.getD []).drop 4)).map EnvVar.Name =
      ["KUBE_NAMESPACE"] ∧
    applyEnvOps "/spec/containers/0/env" []
      (((CreatePatch scenarioA scenarioAConfig).value?.getD []).drop 4) ≠
      [] ++ buildEnvVars scenarioAConfig := by
  decide

theorem findPMSContainerIdx_of_first (name : String) (cs : List Container) (i : Nat)
    (c : Container) (h : IsFirstNamed cs name i c) :
    findPMSContainerIdx name cs 0 = ((i : Nat) : Int) := by
  obtain ⟨k, d, hf, hidx⟩ := findPMSContainerIdx_some name cs 0 ⟨c, List.getElem?_mem h.1, h.2.1⟩
  obtain ⟨rfl, _⟩ := IsFirstNamed_unique _ _ _ _ _ _ h hf
  rw [hidx, Nat.zero_add]

/-- C17: for a pod with at least one container, no (or an empty) `pms-container`
annotation and a resolvable transcode PVC, ExtractConfig succeeds with PMSContainer the
name of the first container, PMSImage its image when there is no `pms-image` annotation,
and KubePlexImage the default when there is no `kube-plex-image` annotation; CreatePatch
on that configuration succeeds and targets container index 0: its output is the volume
operation, the init-container operation, the volume-mount and lifecycle operations of
container 0, then for every variable of `buildEnvVars cfg`, in order, one `add` of that
variable at the env list of container 0 (the variables start with PMS_IMAGE,
TRANSCODE_PVC, KUBE_NAMESPACE); every operation is an `add` when the first container has
no lifecycle record. -/
theorem default_target_container (pod : Pod) (ns : String) (c0 : Container)
    (rest : List Container) (hc : pod.Spec.Containers = c0 :: rest)
    (hn : mapIndex (pod.Annotations.getD []) AnnotationPMSContainer = "")
    (ht : resolvePVC (mapIndex (pod.Annotations.getD []) AnnotationTranscodePVC) "transcode"
      pod.Spec.Volumes ≠ "") :
    ∃ cfg ops,
      ExtractConfig pod ns = Result.ok cfg ∧
      cfg.PMSContainer = c0.Name ∧
      (mapIndex (pod.Annotations.getD []) AnnotationPMSImage = "" → cfg.PMSImage = c0.Image) ∧
      (mapIndex (pod.Annotations.getD []) AnnotationKubePlexImage = "" →
        cfg.KubePlexImage = "ghcr.io/adamjacobmuller/kube-plex:latest") ∧
      CreatePatch pod cfg = Result.ok ops ∧
      IsFirstNamed pod.Spec.Containers cfg.PMSContainer 0 c0 ∧
      (ops[2]?.map PatchOperation.Path = some "/spec/containers/0/volumeMounts" ∨
        ops[2]?.map PatchOperation.Path = some "/spec/containers/0/volumeMounts/-") ∧
      ops[3]?.map PatchOperation.Path = some "/spec/containers/0/lifecycle" ∧
      (∀ op ∈ ops.drop 4,
        op.Path = "/spec/containers/0/env" ∨ op.Path = "/spec/containers/0/env/-") ∧
      ops.length = 4 + (buildEnvVars cfg).length ∧
      ((buildEnvVars cfg).map EnvVar.Name).take 3 =
        ["PMS_IMAGE", "TRANSCODE_PVC", "KUBE_NAMESPACE"] ∧
      (c0.Lifecycle = none → ∀ op ∈ ops, op.Op = "add") ∧
      ops =
        [ (if pod.Spec.Volumes = [] then
             { Op := "add", Path := "/spec/volumes", Value := PatchValue.volumes [binaryVolume] }
           else
             { Op := "add", Path := "/spec/volumes/-", Value := PatchValue.volume binaryVolume }),
          (if pod.Spec.InitContainers = [] then
             { Op := "add", Path := "/spec/initContainers",
               Value := PatchValue.containers
                 [{ Name := "kube-plex-init", Image := cfg.KubePlexImage,
                    Command := ["cp", "/kube-plex", "/shared/kube-plex"], Env := [],
                    VolumeMounts := [binaryMount], Lifecycle := none }] }
           else
             { Op := "add", Path := "/spec/initContainers/-",
               Value := PatchValue.container
                 { Name := "kube-plex-init", Image := cfg.KubePlexImage,
                   Command := ["cp", "/kube-plex", "/shared/kube-plex"], Env := [],
                   VolumeMounts := [binaryMount], Lifecycle := none } }),
          (if c0.VolumeMounts = [] then
             { Op := "add", Path := "/spec/containers/0/volumeMounts",
               Value := PatchValue.volumeMounts [binaryMount] }
           else
             { Op := "add", Path := "/spec/containers/0/volumeMounts/-",
               Value := PatchValue.volumeMount binaryMount }),
          (match c0.Lifecycle with
           | some existing =>
             { Op := "replace", Path := "/spec/containers/0/lifecycle",
               Value := PatchValue.lifecycle
                 { PostStart := some waitAndCopyHook, PreStop := existing.PreStop } }
           | none =>
             { Op := "add", Path := "/spec/containers/0/lifecycle",
               Value := PatchValue.lifecycle
                 { PostStart := some waitAndCopyHook, PreStop := none } }) ] ++
        (buildEnvVars cfg).map (fun env =>
          if c0.Env = [] then
            { Op := "add", Path := "/spec/containers/0/env",
              Value := PatchValue.envVars [env] }
          else
            { Op := "add", Path := "/spec/containers/0/env/-",
              Value := PatchValue.envVar env }) ∧
      (buildEnvVars cfg).take 3 =
        [ { Name := "PMS_IMAGE", Value := cfg.PMSImage, ValueFrom := none },
          { Name := "TRANSCODE_PVC", Value := cfg.TranscodePVC, ValueFrom := none },
          { Name := "KUBE_NAMESPACE", Value := "",
            ValueFrom := some
              { FieldRef := some { APIVersion := "", FieldPath := "metadata.namespace" } } } ] := by
  have hres : resolvedContainer pod = c0.Name := by
    simp [resolvedContainer, hn, hc]
  have hcfg := ExtractConfig_eq pod ns
  rw [if_neg ht, hres] at hcfg
  have key : ∃ cfg : Config, ExtractConfig pod ns = Result.ok cfg ∧ cfg.PMSContainer = c0.Name ∧
      cfg.PMSImage =
        (if mapIndex (pod.Annotations.getD []) AnnotationPMSImage = "" then
          containerImage c0.Name pod.Spec.Containers ""
        else mapIndex (pod.Annotations.getD []) AnnotationPMSImage) ∧
      cfg.KubePlexImage =
        (if mapIndex (pod.Annotations.getD []) AnnotationKubePlexImage = "" then
          DefaultKubePlexImage
        else mapIndex (pod.Annotations.getD []) AnnotationKubePlexImage) :=
    ⟨_, hcfg, rfl, rfl, rfl⟩
  obtain ⟨cfg, hE, hN, hI, hK⟩ := key
  have hf : IsFirstNamed pod.Spec.Containers cfg.PMSContainer 0 c0 := by
    refine ⟨by simp [hc], hN.symm, ?_⟩
    intro j hj
    omega
  have hops := CreatePatch_of_first pod cfg 0 c0 hf
  refine ⟨cfg, _, hE, hN, ?_, ?_, hops, hf, ?_, ?_, ?_, ?_, ?_, ?_, ?_, ?_⟩
  · intro hi
    rw [hI]
    simp [hi, hc, containerImage]
  · intro hk
    rw [hK]
    simp [hk, DefaultKubePlexImage]
  · by_cases hv : c0.VolumeMounts.length = 0
    · left; simp [hv]; decide
    · right; simp [hv]; decide
  · cases c0.Lifecycle <;> simp <;> decide
  · intro op hop
    simp only [List.drop_succ_cons, List.drop_zero, List.cons_append, List.nil_append,
      List.mem_map] at hop
    obtain ⟨env, _, rfl⟩ := hop
    by_cases he : c0.Env.length = 0
    · left; simp [he]; decide
    · right; simp [he]; decide
  · simp; omega
  · rw [buildEnvVars_eq]
    simp
  · intro hl op hop
    simp only [List.cons_append, List.nil_append, List.mem_cons, List.mem_map, hl] at hop
    rcases hop with rfl | rfl | rfl | rfl | ⟨env, _, rfl⟩
    · unfold addVolume; split_ifs <;> rfl
    · unfold addInitContainer; split_ifs <;> rfl
    · split_ifs <;> rfl
    · rfl
    · split_ifs <;> rfl
  · have p1 : "/spec/containers/" ++ toString (0 : Nat) ++ "/volumeMounts" =
        "/spec/containers/0/volumeMounts" := by decide
    have p2 : "/spec/containers/" ++ toString (0 : Nat) ++ "/volumeMounts/-" =
        "/spec/containers/0/volumeMounts/-" := by decide
    have p3 : "/spec/containers/" ++ toString (0 : Nat) ++ "/lifecycle" =
        "/spec/containers/0/lifecycle" := by decide
    have p4 : "/spec/containers/" ++ toString (0 : Nat) ++ "/env" =
        "/spec/containers/0/env" := by decide
    have p5 : "/spec/containers/" ++ toString (0 : Nat) ++ "/env/-" =
        "/spec/containers/0/env/-" := by decide
    simp only [p1, p2, p3, p4, p5, addVolume, addInitContainer, List.length_eq_zero]
  · rw [buildEnvVars_eq]
    simp

theorem default_target_container_witness :
    ∃ cfg ops,
      ExtractConfig scenarioA "media" = Result.ok cfg ∧
      cfg.PMSContainer = (plainContainer "plex" "plexinc/pms:1").Name ∧
      (mapIndex (scenarioA.Annotations.getD []) AnnotationPMSImage = "" → cfg.PMSImage = (plainContainer "plex" "plexinc/pms:1").Image) ∧
      (mapIndex (scenarioA.Annotations.getD []) AnnotationKubePlexImage = "" →
        cfg.KubePlexImage = "ghcr.io/adamjacobmuller/kube-plex:latest") ∧
      CreatePatch scenarioA cfg = Result.ok ops ∧
      IsFirstNamed scenarioA.Spec.Containers cfg.PMSContainer 0 (plainContainer "plex" "plexinc/pms:1") ∧
      (ops[2]?.map PatchOperation.Path = some "/spec/containers/0/volumeMounts" ∨
        ops[2]?.map PatchOperation.Path = some "/spec/containers/0/volumeMounts/-") ∧
      ops[3]?.map PatchOperation.Path = some "/spec/containers/0/lifecycle" ∧
      (∀ op ∈ ops.drop 4,
        op.Path = "/spec/containers/0/env" ∨ op.Path = "/spec/containers/0/env/-") ∧
      ops.length = 4 + (buildEnvVars cfg).length ∧
      ((buildEnvVars cfg).map EnvVar.Name).take 3 =
        ["PMS_IMAGE", "TRANSCODE_PVC", "KUBE_NAMESPACE"] ∧
      ((plainContainer "plex" "plexinc/pms:1").Lifecycle = none → ∀ op ∈ ops, op.Op = "add") ∧
      ops =
        [ (if scenarioA.Spec.Volumes = [] then
             { Op := "add", Path := "/spec/volumes", Value := PatchValue.volumes [binaryVolume] }
           else
             { Op := "add", Path := "/spec/volumes/-", Value := PatchValue.volume binaryVolume }),
          (if scenarioA.Spec.InitContainers = [] then
             { Op := "add", Path := "/spec/initContainers",
               Value := PatchValue.containers
                 [{ Name := "kube-plex-init", Image := cfg.KubePlexImage,
                    Command := ["cp", "/kube-plex", "/shared/kube-plex"], Env := [],
                    VolumeMounts := [binaryMount], Lifecycle := none }] }
           else
             { Op := "add", Path := "/spec/initContainers/-",
               Value := PatchValue.container
                 { Name := "kube-plex-init", Image := cfg.KubePlexImage,
                   Command := ["cp", "/kube-plex", "/shared/kube-plex"], Env := [],
                   VolumeMounts := [binaryMount], Lifecycle := none } }),
          (if (plainContainer "plex" "plexinc/pms:1").VolumeMounts = [] then
             { Op := "add", Path := "/spec/containers/0/volumeMounts",
               Value := PatchValue.volumeMounts [binaryMount] }
           else
             { Op := "add", Path := "/spec/containers/0/volumeMounts/-",
               Value := PatchValue.volumeMount binaryMount }),
          (match (plainContainer "plex" "plexinc/pms:1").Lifecycle with
           | some existing =>
             { Op := "replace", Path := "/spec/containers/0/lifecycle",
               Value := PatchValue.lifecycle
                 { PostStart := some waitAndCopyHook, PreStop := existing.PreStop } }
           | none =>
             { Op := "add", Path := "/spec/containers/0/lifecycle",
               Value := PatchValue.lifecycle
                 { PostStart := some waitAndCopyHook, PreStop := none } }) ] ++
        (buildEnvVars cfg).map (fun env =>
          if (plainContainer "plex" "plexinc/pms:1").Env = [] then
            { Op := "add", Path := "/spec/containers/0/env",
              Value := PatchValue.envVars [env] }
          else
            { Op := "add", Path := "/spec/containers/0/env/-",
              Value := PatchValue.envVar env }) ∧
      (buildEnvVars cfg).take 3 =
        [ { Name := "PMS_IMAGE", Value := cfg.PMSImage, ValueFrom := none },
          { Name := "TRANSCODE_PVC", Value := cfg.TranscodePVC, ValueFrom := none },
          { Name := "KUBE_NAMESPACE", Value := "",
            ValueFrom := some
              { FieldRef := some { APIVersion := "", FieldPath := "metadata.namespace" } } } ] :=
  default_target_container scenarioA "media" (plainContainer "plex" "plexinc/pms:1") []
    (by decide) (by decide) (by decide)

/-- C18 (as stated, refuted): a pod with zero containers, a transcode PVC and a
`pms-container` annotation resolves with a non-empty PMSContainer. -/
theorem zero_containers_counterexample :
    noContainersNamedPod.Spec.Containers = [] ∧
    ExtractConfig noContainersNamedPod "media" =
      Result.ok
        { PMSService := "", DataPVC := "", ConfigPVC := "", TranscodePVC := "tc1",
          PMSContainer := "plex", PMSImage := "",
          KubePlexImage := DefaultKubePlexImage, Namespace := "media" } ∧
    ("plex" : String) ≠ "" := by
  decide

/-- C18 (amended): ExtractConfig and CreatePatch never fault, on any pod and
configuration, and ShouldMutate is false on a pod with a nil or an empty annotation map;
the index found by the name search is that of the first matching container, is within
bounds, and the helpers `addVolumeMount`, `addLifecycleHook`, `addEnvVar` return an
operation at it. For a pod with zero containers and a resolvable transcode PVC,
ExtractConfig succeeds with PMSContainer equal to the `pms-container` annotation value
(empty when that annotation is absent or empty) and CreatePatch returns the
container-not-found error. -/
theorem core_never_faults (pod : Pod) (ns : String) (cfg : Config) :
    ExtractConfig pod ns ≠ Result.fault ∧
    CreatePatch pod cfg ≠ Result.fault ∧
    ShouldMutate { pod with Annotations := none } = false ∧
    ShouldMutate { pod with Annotations := some [] } = false ∧
    (∀ i c, IsFirstNamed pod.Spec.Containers cfg.PMSContainer i c →
      findPMSContainerIdx cfg.PMSContainer pod.Spec.Containers 0 = ((i : Nat) : Int) ∧
      i < pod.Spec.Containers.length ∧
      ∀ mount env,
        (addVolumeMount pod ((i : Nat) : Int) mount).isSome = true ∧
        (addLifecycleHook pod ((i : Nat) : Int)).isSome = true ∧
        (addEnvVar pod ((i : Nat) : Int) env).isSome = true) ∧
    (pod.Spec.Containers = [] →
      resolvePVC (mapIndex (pod.Annotations.getD []) AnnotationTranscodePVC) "transcode"
        pod.Spec.Volumes ≠ "" →
      ∃ resolved,
        ExtractConfig pod ns = Result.ok resolved ∧
        resolved.PMSContainer = mapIndex (pod.Annotations.getD []) AnnotationPMSContainer ∧
        CreatePatch pod resolved =
          Result.error (CoreError.containerNotFound resolved.PMSContainer)) := by
  refine ⟨?_, ?_, rfl, rfl, ?_, ?_⟩
  · rw [ExtractConfig_eq]
    split_ifs <;> simp
  · by_cases hex : ∃ c ∈ pod.Spec.Containers, c.Name = cfg.PMSContainer
    · obtain ⟨k, c, hf, _⟩ :=
        findPMSContainerIdx_some cfg.PMSContainer pod.Spec.Containers 0 hex
      rw [CreatePatch_of_first pod cfg k c hf]
      simp
    · have hno : ∀ c ∈ pod.Spec.Containers, c.Name ≠ cfg.PMSContainer := by
        intro c hc hn
        exact hex ⟨c, hc, hn⟩
      rw [CreatePatch_of_none pod cfg hno]
      simp
  · intro i c hf
    have hat : containerAt pod ((i : Nat) : Int) = some c := by
      rw [containerAt_natCast]; exact hf.1
    refine ⟨findPMSContainerIdx_of_first _ _ i c hf, (List.getElem?_eq_some.1 hf.1).1, ?_⟩
    intro mount env
    refine ⟨?_, ?_, ?_⟩
    · unfold addVolumeMount
      simp only [hat]
      split_ifs <;> rfl
    · unfold addLifecycleHook
      simp only [hat]
      cases c.Lifecycle <;> rfl
    · unfold addEnvVar
      simp only [hat]
      split_ifs <;> rfl
  · intro hc ht
    have hcfg := ExtractConfig_eq pod ns
    rw [if_neg ht] at hcfg
    refine ⟨_, hcfg, ?_, ?_⟩
    · simp only [resolvedContainer, hc]
      split_ifs with he
      · exact he.symm
      · rfl
    · apply CreatePatch_of_none
      intro c hmem
      rw [hc] at hmem
      cases hmem

theorem core_never_faults_witness :
    ExtractConfig noContainersPod "media" ≠ Result.fault ∧
    (∃ resolved,
      ExtractConfig noContainersPod "media" = Result.ok resolved ∧
      resolved.PMSContainer =
        mapIndex (noContainersPod.Annotations.getD []) AnnotationPMSContainer ∧
      CreatePatch noContainersPod resolved =
        Result.error (CoreError.containerNotFound resolved.PMSContainer)) ∧
    mapIndex (noContainersPod.Annotations.getD []) AnnotationPMSContainer = "" :=
  ⟨(core_never_faults noContainersPod "media" scenarioAConfig).1,
    (core_never_faults noContainersPod "media" scenarioAConfig).2.2.2.2.2 (by decide)
      (by decide),
    by decide⟩

/-- C19: `Handler.mutate` answers with an allowed response that carries no patch, no
patch type and no result message when the request is nil, when the resource kind is not
`Pod`, and when the object decodes to a pod on which ShouldMutate is false, whatever
ExtractConfig or CreatePatch would do on that pod. -/
theorem mutate_gate_short_circuit (h : Handler) (unmarshal : List UInt8 → Except String Pod)
    (quote : String → String) (ar : AdmissionReview)
    (hcase : ar.Request = none ∨
      ∃ req, ar.Request = some req ∧
        (req.Kind.Kind ≠ "Pod" ∨
          ∃ pod, unmarshal req.Object.Raw = Except.ok pod ∧ ShouldMutate pod = false)) :
    Handler.mutate h unmarshal quote ar =
      some { UID := "", Allowed := true, Result := none, Patch := none, PatchType := none } := by
  unfold Handler.mutate
  rcases hcase with hnil | ⟨req, hreq, hkind | ⟨pod, hdec, hgate⟩⟩
  · rw [hnil]
  · rw [hreq]
    simp only []
    rw [if_pos hkind]
  · rw [hreq]
    by_cases hkind : req.Kind.Kind = "Pod"
    · simp [hkind, hdec, hgate]
    · simp [hkind]

theorem mutate_gate_short_circuit_witness :
    ShouldMutate notEnabledPod = false ∧
    ExtractConfig notEnabledPod "media" = Result.error CoreError.transcodePVCRequired ∧
    Handler.mutate {} exampleUnmarshal exampleQuote (podRequest [2]) =
      some { UID := "", Allowed := true, Result := none, Patch := none, PatchType := none } :=
  ⟨by decide, by decide,
    mutate_gate_short_circuit {} exampleUnmarshal exampleQuote (podRequest [2])
      (Or.inr ⟨_, rfl, Or.inr ⟨notEnabledPod, rfl, by decide⟩⟩)⟩

/-- C20: for an admission request for a `Pod` that decodes to a pod on which ShouldMutate
is true, `Handler.mutate` answers a failure of ExtractConfig with `allowed = false`, no
patch, no patch type and the message `configuration error: ` followed by the error text;
a failure of CreatePatch in the same way with the message `could not create patch: `
followed by the error text; and when both succeed it answers `allowed = true` with patch
type `JSONPatch` and the output of CreatePatch as patch. -/
theorem mutate_errors_and_patch (h : Handler) (unmarshal : List UInt8 → Except String Pod)
    (quote : String → String) (ar : AdmissionReview) (req : AdmissionRequest) (pod : Pod)
    (hreq : ar.Request = some req) (hkind : req.Kind.Kind = "Pod")
    (hdec : unmarshal req.Object.Raw = Except.ok pod) (hgate : ShouldMutate pod = true) :
    (∀ e, ExtractConfig pod req.Namespace = Result.error e →
      Handler.mutate h unmarshal quote ar =
        some { UID := "", Allowed := false,
               Result := some { Message := "configuration error: " ++ e.Error quote },
               Patch := none, PatchType := none }) ∧
    (∀ cfg e, ExtractConfig pod req.Namespace = Result.ok cfg →
      CreatePatch pod cfg = Result.error e →
      Handler.mutate h unmarshal quote ar =
        some { UID := "", Allowed := false,
               Result := some { Message := "could not create patch: " ++ e.Error quote },
               Patch := none, PatchType := none }) ∧
    (∀ cfg ops, ExtractConfig pod req.Namespace = Result.ok cfg →
      CreatePatch pod cfg = Result.ok ops →
      Handler.mutate h unmarshal quote ar =
        some { UID := "", Allowed := true, Result := none, Patch := some ops,
               PatchType := some "JSONPatch" }) ∧
    CoreError.transcodePVCRequired.Error quote =
      "transcode PVC is required: set kube-plex.io/transcode-pvc annotation" ∧
    (∀ name, (CoreError.containerNotFound name).Error quote =
      "container " ++ quote name ++ " not found") := by
  refine ⟨?_, ?_, ?_, by simp [CoreError.Error, AnnotationTranscodePVC], fun _ => rfl⟩
  · intro e he
    simp [Handler.mutate, hreq, hkind, hdec, hgate, he]
  · intro cfg e hc he
    simp [Handler.mutate, hreq, hkind, hdec, hgate, hc, he]
  · intro cfg ops hc ho
    simp [Handler.mutate, hreq, hkind, hdec, hgate, hc, ho, PatchTypeJSONPatch]

theorem mutate_errors_and_patch_witness :
    Handler.mutate {} exampleUnmarshal exampleQuote (podRequest [3]) =
      some { UID := "", Allowed := false,
             Result := some { Message :=
               "configuration error: transcode PVC is required: set kube-plex.io/transcode-pvc annotation" },
             Patch := none, PatchType := none } ∧
    Handler.mutate {} exampleUnmarshal exampleQuote (podRequest [4]) =
      some { UID := "", Allowed := false,
             Result := some { Message := "could not create patch: container \"missing\" not found" },
             Patch := none, PatchType := none } ∧
    Handler.mutate {} exampleUnmarshal exampleQuote (podRequest [1]) =
      some { UID := "", Allowed := true, Result := none,
             Patch := some (((CreatePatch scenarioA scenarioAConfig).value?).getD []),
             PatchType := some "JSONPatch" } :=
  ⟨(mutate_errors_and_patch {} exampleUnmarshal exampleQuote (podRequest [3]) _
      enabledNoTranscodePod rfl (by decide) rfl (by decide)).1
      CoreError.transcodePVCRequired (by decide),
    (mutate_errors_and_patch {} exampleUnmarshal exampleQuote (podRequest [4]) _
      { scenarioA with
        Annotations := some [(AnnotationEnabled, "true"), (AnnotationTranscodePVC, "tc1"),
          (AnnotationPMSContainer, "missing")] }
      rfl (by decide) rfl (by decide)).2.1
      { scenarioAConfig with PMSContainer := "missing", PMSImage := "" }
      (CoreError.containerNotFound "missing") (by decide) (by decide),
    (mutate_errors_and_patch {} exampleUnmarshal exampleQuote (podRequest [1]) _
      scenarioA rfl (by decide) rfl (by decide)).2.2.1
      scenarioAConfig (((CreatePatch scenarioA scenarioAConfig).value?).getD [])
      (by decide) (by decide)⟩

end KubePlex
